import Mathlib

/-!
Verification development for the `eclipse-new-java-project` extension core:
the two XML descriptor builders (`createProjectFile`, `createClassPathFile`),
the folder provisioner (`createProjectFolder`), and the workspace helpers
(`findFolderInWorkspace`, `getWorkspaceRoot`) from `src/extension.ts`.

Strings are modelled by Lean `String` (a list of characters); the XML
serialization and the filesystem are shallowly embedded as described at each
definition.
-/

set_option maxHeartbeats 4000000
set_option maxRecDepth 100000

namespace NewJavaProject

/-!
XML escaping

Modelled from the spec: the serializer is the external `xmlbuilder` library
(a dependency, not part of the repository source). Per spec §4.1, element
text and attribute values "must be escaped correctly by the serializer";
we model the standard XML escapes: `&`, `<`, `>` in text, and `&`, `<`, `"`
in attribute values.
-/

/-- Escape of a single character in element text. -/
def textEscapeSeg (c : Char) : List Char :=
  if c = '&' then ['&', 'a', 'm', 'p', ';']
  else if c = '<' then ['&', 'l', 't', ';']
  else if c = '>' then ['&', 'g', 't', ';']
  else [c]

/-- XML text escaping on character lists. -/
def textEscapeList : List Char → List Char
  | [] => []
  | c :: cs => textEscapeSeg c ++ textEscapeList cs

/-- Escape of a single character in an attribute value. -/
def attEscapeSeg (c : Char) : List Char :=
  if c = '&' then ['&', 'a', 'm', 'p', ';']
  else if c = '<' then ['&', 'l', 't', ';']
  else if c = '"' then ['&', 'q', 'u', 'o', 't', ';']
  else [c]

/-- XML attribute-value escaping on character lists. -/
def attEscapeList : List Char → List Char
  | [] => []
  | c :: cs => attEscapeSeg c ++ attEscapeList cs

/-!
XML documents and the pretty writer

`xmlbuilder.create(...)` builds a tree of elements (with ordered attribute
lists and ordered children) and text nodes; `.end(pretty := true)` writes it
with two-space indentation, one line per node, a leading UTF-8 declaration
and no newline after the final closing tag.  The writer's behaviour is
modelled from the spec's literal blocks in §4.1 and the expected outputs in
`src/test/extension.test.ts`: an element whose children are all empty text
(or that has none) is written self-closing, an element with a single
non-empty text child is written inline, and any other element is written as
an open tag, its children indented one level deeper, and a closing tag.
-/

inductive XmlNode where
  | elem (name : String) (attrs : List (String × String)) (children : List XmlNode)
  | text (s : String)
deriving Repr

/-- `xmlbuilder`'s "this child counts as empty" test: a text node with empty
value. -/
def isEmptyVal : XmlNode → Bool
  | .text s => s = ""
  | .elem _ _ _ => false

/-- An element is written self-closing when every child is empty text
(vacuously true for no children). -/
def childless (cs : List XmlNode) : Bool := cs.all isEmptyVal

/-- An element with exactly one text child is written on a single line. -/
def inlineText : List XmlNode → Option String
  | [XmlNode.text s] => some s
  | _ => none

/-- Two-space indentation at nesting depth `lvl`. -/
def indentChars (lvl : Nat) : List Char := List.replicate (2 * lvl) ' '

/-- Serialized attribute list: ` name="value"` for each attribute, in
order, attribute values escaped. -/
def renderAttrs : List (String × String) → List Char
  | [] => []
  | (n, v) :: rest =>
    ' ' :: (n.data ++ '=' :: '"' :: (attEscapeList v.data ++ '"' :: renderAttrs rest))

mutual

/-- Pretty-printed lines of one node at depth `lvl`. -/
def renderNode : XmlNode → Nat → List (List Char)
  | .text s, lvl => [indentChars lvl ++ textEscapeList s.data]
  | .elem name attrs cs, lvl =>
    if childless cs then
      [indentChars lvl ++ '<' :: (name.data ++ renderAttrs attrs ++ ['/', '>'])]
    else
      match inlineText cs with
      | some t =>
        [indentChars lvl ++ '<' ::
          (name.data ++ renderAttrs attrs ++ '>' ::
            (textEscapeList t.data ++ '<' :: '/' :: (name.data ++ ['>'])))]
      | none =>
        (indentChars lvl ++ '<' :: (name.data ++ renderAttrs attrs ++ ['>'])) ::
          (renderNodes cs (lvl + 1) ++
            [indentChars lvl ++ '<' :: '/' :: (name.data ++ ['>'])])

/-- Pretty-printed lines of a child list at depth `lvl`. -/
def renderNodes : List XmlNode → Nat → List (List Char)
  | [], _ => []
  | c :: cs, lvl => renderNode c lvl ++ renderNodes cs lvl

end

/-- Join lines with newlines; no trailing newline after the last line. -/
def joinLines : List (List Char) → List Char
  | [] => []
  | [l] => l
  | l :: ls => l ++ '\n' :: joinLines ls

/-- The XML declaration `xmlbuilder` emits for `encoding: 'UTF-8'`. -/
def declChars : List Char := "<?xml version=\"1.0\" encoding=\"UTF-8\"?>".data

/-- `xml.end(pretty := true)`: declaration line, then the document, two-space
indent, no trailing newline. -/
def endPretty (root : XmlNode) : String :=
  String.mk (joinLines (declChars :: renderNode root 0))

/-!
The descriptor builders (from `src/extension.ts`)
-/

/-- The object literal passed to `xmlbuilder.create` by `createProjectFile`,
as the element tree it denotes (a string value becomes a text child, an
empty object becomes an element with no children). -/
def projectXml (projectName : String) : XmlNode :=
  .elem "projectDescription" []
    [ .elem "name" [] [.text projectName],
      .elem "comment" [] [.text ""],
      .elem "projects" [] [],
      .elem "buildSpec" []
        [ .elem "buildCommand" []
            [ .elem "name" [] [.text "org.eclipse.jdt.core.javabuilder"],
              .elem "arguments" [] [] ] ],
      .elem "natures" []
        [ .elem "nature" [] [.text "org.eclipse.jdt.core.javanature"] ] ]

/-- `createProjectFile` from `src/extension.ts`: the `.project` XML text. -/
def createProjectFile (projectName : String) : String :=
  endPretty (projectXml projectName)

/-- The fixed JRE container path prefix used for the `con` classpath entry. -/
def jreContainerPath (javaVersion : String) : String :=
  "org.eclipse.jdt.launching.JRE_CONTAINER/org.eclipse.jdt.internal.debug.ui.launcher.StandardVMType/"
    ++ javaVersion

/-- The element tree built by the `ele`/`att` calls in `createClassPathFile`. -/
def classpathXml (javaVersion : String) : XmlNode :=
  .elem "classpath" []
    [ .elem "classpathentry"
        [("kind", "con"), ("path", jreContainerPath javaVersion)]
        [ .elem "attributes" []
            [ .elem "attribute" [("name", "module"), ("value", "true")] [] ] ],
      .elem "classpathentry" [("kind", "src"), ("path", "src")] [],
      .elem "classpathentry" [("kind", "output"), ("path", "bin")] [] ]

/-- `createClassPathFile` from `src/extension.ts`: the `.classpath` XML text. -/
def createClassPathFile (javaVersion : String) : String :=
  endPretty (classpathXml javaVersion)

/-!
Escaping lemmas and fixed document segments
-/

theorem attEscapeList_append (a b : List Char) :
    attEscapeList (a ++ b) = attEscapeList a ++ attEscapeList b := by
  induction a with
  | nil => rfl
  | cons c cs ih => simp [attEscapeList, ih]

theorem textEscapeList_append (a b : List Char) :
    textEscapeList (a ++ b) = textEscapeList a ++ textEscapeList b := by
  induction a with
  | nil => rfl
  | cons c cs ih => simp [textEscapeList, ih]

/-- Explicit character list form of a fixed document segment. -/
def pjPreL : List Char :=
  ['<', '?', 'x', 'm', 'l', ' ', 'v', 'e', 'r', 's', 'i', 'o', 'n', '=', '"', '1', '.', '0', '"', ' ', 'e', 'n', 'c', 'o', 'd', 'i', 'n', 'g', '=', '"', 'U', 'T', 'F', '-', '8', '"', '?', '>', '\n', '<', 'p', 'r', 'o', 'j', 'e', 'c', 't', 'D', 'e', 's', 'c', 'r', 'i', 'p', 't', 'i', 'o', 'n', '>', '\n', ' ', ' ', '<', 'n', 'a', 'm', 'e', '>']

/-- Explicit character list form of a fixed document segment. -/
def pjSufL : List Char :=
  ['<', '/', 'n', 'a', 'm', 'e', '>', '\n', ' ', ' ', '<', 'c', 'o', 'm', 'm', 'e', 'n', 't', '/', '>', '\n', ' ', ' ', '<', 'p', 'r', 'o', 'j', 'e', 'c', 't', 's', '/', '>', '\n', ' ', ' ', '<', 'b', 'u', 'i', 'l', 'd', 'S', 'p', 'e', 'c', '>', '\n', ' ', ' ', ' ', ' ', '<', 'b', 'u', 'i', 'l', 'd', 'C', 'o', 'm', 'm', 'a', 'n', 'd', '>', '\n', ' ', ' ', ' ', ' ', ' ', ' ', '<', 'n', 'a', 'm', 'e', '>', 'o', 'r', 'g', '.', 'e', 'c', 'l', 'i', 'p', 's', 'e', '.', 'j', 'd', 't', '.', 'c', 'o', 'r', 'e', '.', 'j', 'a', 'v', 'a', 'b', 'u', 'i', 'l', 'd', 'e', 'r', '<', '/', 'n', 'a', 'm', 'e', '>', '\n', ' ', ' ', ' ', ' ', ' ', ' ', '<', 'a', 'r', 'g', 'u', 'm', 'e', 'n', 't', 's', '/', '>', '\n', ' ', ' ', ' ', ' ', '<', '/', 'b', 'u', 'i', 'l', 'd', 'C', 'o', 'm', 'm', 'a', 'n', 'd', '>', '\n', ' ', ' ', '<', '/', 'b', 'u', 'i', 'l', 'd', 'S', 'p', 'e', 'c', '>', '\n', ' ', ' ', '<', 'n', 'a', 't', 'u', 'r', 'e', 's', '>', '\n', ' ', ' ', ' ', ' ', '<', 'n', 'a', 't', 'u', 'r', 'e', '>', 'o', 'r', 'g', '.', 'e', 'c', 'l', 'i', 'p', 's', 'e', '.', 'j', 'd', 't', '.', 'c', 'o', 'r', 'e', '.', 'j', 'a', 'v', 'a', 'n', 'a', 't', 'u', 'r', 'e', '<', '/', 'n', 'a', 't', 'u', 'r', 'e', '>', '\n', ' ', ' ', '<', '/', 'n', 'a', 't', 'u', 'r', 'e', 's', '>', '\n', '<', '/', 'p', 'r', 'o', 'j', 'e', 'c', 't', 'D', 'e', 's', 'c', 'r', 'i', 'p', 't', 'i', 'o', 'n', '>']

/-- Explicit character list form of a fixed document segment. -/
def cpPreL : List Char :=
  ['<', '?', 'x', 'm', 'l', ' ', 'v', 'e', 'r', 's', 'i', 'o', 'n', '=', '"', '1', '.', '0', '"', ' ', 'e', 'n', 'c', 'o', 'd', 'i', 'n', 'g', '=', '"', 'U', 'T', 'F', '-', '8', '"', '?', '>', '\n', '<', 'c', 'l', 'a', 's', 's', 'p', 'a', 't', 'h', '>', '\n', ' ', ' ', '<', 'c', 'l', 'a', 's', 's', 'p', 'a', 't', 'h', 'e', 'n', 't', 'r', 'y', ' ', 'k', 'i', 'n', 'd', '=', '"', 'c', 'o', 'n', '"', ' ', 'p', 'a', 't', 'h', '=', '"', 'o', 'r', 'g', '.', 'e', 'c', 'l', 'i', 'p', 's', 'e', '.', 'j', 'd', 't', '.', 'l', 'a', 'u', 'n', 'c', 'h', 'i', 'n', 'g', '.', 'J', 'R', 'E', '_', 'C', 'O', 'N', 'T', 'A', 'I', 'N', 'E', 'R', '/', 'o', 'r', 'g', '.', 'e', 'c', 'l', 'i', 'p', 's', 'e', '.', 'j', 'd', 't', '.', 'i', 'n', 't', 'e', 'r', 'n', 'a', 'l', '.', 'd', 'e', 'b', 'u', 'g', '.', 'u', 'i', '.', 'l', 'a', 'u', 'n', 'c', 'h', 'e', 'r', '.', 'S', 't', 'a', 'n', 'd', 'a', 'r', 'd', 'V', 'M', 'T', 'y', 'p', 'e', '/']

/-- Explicit character list form of a fixed document segment. -/
def cpSufL : List Char :=
  ['"', '>', '\n', ' ', ' ', ' ', ' ', '<', 'a', 't', 't', 'r', 'i', 'b', 'u', 't', 'e', 's', '>', '\n', ' ', ' ', ' ', ' ', ' ', ' ', '<', 'a', 't', 't', 'r', 'i', 'b', 'u', 't', 'e', ' ', 'n', 'a', 'm', 'e', '=', '"', 'm', 'o', 'd', 'u', 'l', 'e', '"', ' ', 'v', 'a', 'l', 'u', 'e', '=', '"', 't', 'r', 'u', 'e', '"', '/', '>', '\n', ' ', ' ', ' ', ' ', '<', '/', 'a', 't', 't', 'r', 'i', 'b', 'u', 't', 'e', 's', '>', '\n', ' ', ' ', '<', '/', 'c', 'l', 'a', 's', 's', 'p', 'a', 't', 'h', 'e', 'n', 't', 'r', 'y', '>', '\n', ' ', ' ', '<', 'c', 'l', 'a', 's', 's', 'p', 'a', 't', 'h', 'e', 'n', 't', 'r', 'y', ' ', 'k', 'i', 'n', 'd', '=', '"', 's', 'r', 'c', '"', ' ', 'p', 'a', 't', 'h', '=', '"', 's', 'r', 'c', '"', '/', '>', '\n', ' ', ' ', '<', 'c', 'l', 'a', 's', 's', 'p', 'a', 't', 'h', 'e', 'n', 't', 'r', 'y', ' ', 'k', 'i', 'n', 'd', '=', '"', 'o', 'u', 't', 'p', 'u', 't', '"', ' ', 'p', 'a', 't', 'h', '=', '"', 'b', 'i', 'n', '"', '/', '>', '\n', '<', '/', 'c', 'l', 'a', 's', 's', 'p', 'a', 't', 'h', '>']

theorem litD0 : "<?xml version=\"1.0\" encoding=\"UTF-8\"?>".data = ['<', '?', 'x', 'm', 'l', ' ', 'v', 'e', 'r', 's', 'i', 'o', 'n', '=', '"', '1', '.', '0', '"', ' ', 'e', 'n', 'c', 'o', 'd', 'i', 'n', 'g', '=', '"', 'U', 'T', 'F', '-', '8', '"', '?', '>'] := rfl

theorem litD1 : "projectDescription".data = ['p', 'r', 'o', 'j', 'e', 'c', 't', 'D', 'e', 's', 'c', 'r', 'i', 'p', 't', 'i', 'o', 'n'] := rfl

theorem litD2 : "name".data = ['n', 'a', 'm', 'e'] := rfl

theorem litD3 : "comment".data = ['c', 'o', 'm', 'm', 'e', 'n', 't'] := rfl

theorem litD4 : "projects".data = ['p', 'r', 'o', 'j', 'e', 'c', 't', 's'] := rfl

theorem litD5 : "buildSpec".data = ['b', 'u', 'i', 'l', 'd', 'S', 'p', 'e', 'c'] := rfl

theorem litD6 : "buildCommand".data = ['b', 'u', 'i', 'l', 'd', 'C', 'o', 'm', 'm', 'a', 'n', 'd'] := rfl

theorem litD7 : "arguments".data = ['a', 'r', 'g', 'u', 'm', 'e', 'n', 't', 's'] := rfl

theorem litD8 : "natures".data = ['n', 'a', 't', 'u', 'r', 'e', 's'] := rfl

theorem litD9 : "nature".data = ['n', 'a', 't', 'u', 'r', 'e'] := rfl

theorem litD10 : "org.eclipse.jdt.core.javabuilder".data = ['o', 'r', 'g', '.', 'e', 'c', 'l', 'i', 'p', 's', 'e', '.', 'j', 'd', 't', '.', 'c', 'o', 'r', 'e', '.', 'j', 'a', 'v', 'a', 'b', 'u', 'i', 'l', 'd', 'e', 'r'] := rfl

theorem litD11 : "org.eclipse.jdt.core.javanature".data = ['o', 'r', 'g', '.', 'e', 'c', 'l', 'i', 'p', 's', 'e', '.', 'j', 'd', 't', '.', 'c', 'o', 'r', 'e', '.', 'j', 'a', 'v', 'a', 'n', 'a', 't', 'u', 'r', 'e'] := rfl

theorem litD12 : "classpath".data = ['c', 'l', 'a', 's', 's', 'p', 'a', 't', 'h'] := rfl

theorem litD13 : "classpathentry".data = ['c', 'l', 'a', 's', 's', 'p', 'a', 't', 'h', 'e', 'n', 't', 'r', 'y'] := rfl

theorem litD14 : "kind".data = ['k', 'i', 'n', 'd'] := rfl

theorem litD15 : "con".data = ['c', 'o', 'n'] := rfl

theorem litD16 : "path".data = ['p', 'a', 't', 'h'] := rfl

theorem litD17 : "src".data = ['s', 'r', 'c'] := rfl

theorem litD18 : "output".data = ['o', 'u', 't', 'p', 'u', 't'] := rfl

theorem litD19 : "bin".data = ['b', 'i', 'n'] := rfl

theorem litD20 : "attributes".data = ['a', 't', 't', 'r', 'i', 'b', 'u', 't', 'e', 's'] := rfl

theorem litD21 : "attribute".data = ['a', 't', 't', 'r', 'i', 'b', 'u', 't', 'e'] := rfl

theorem litD22 : "module".data = ['m', 'o', 'd', 'u', 'l', 'e'] := rfl

theorem litD23 : "value".data = ['v', 'a', 'l', 'u', 'e'] := rfl

theorem litD24 : "true".data = ['t', 'r', 'u', 'e'] := rfl

theorem litD25 : "org.eclipse.jdt.launching.JRE_CONTAINER/org.eclipse.jdt.internal.debug.ui.launcher.StandardVMType/".data = ['o', 'r', 'g', '.', 'e', 'c', 'l', 'i', 'p', 's', 'e', '.', 'j', 'd', 't', '.', 'l', 'a', 'u', 'n', 'c', 'h', 'i', 'n', 'g', '.', 'J', 'R', 'E', '_', 'C', 'O', 'N', 'T', 'A', 'I', 'N', 'E', 'R', '/', 'o', 'r', 'g', '.', 'e', 'c', 'l', 'i', 'p', 's', 'e', '.', 'j', 'd', 't', '.', 'i', 'n', 't', 'e', 'r', 'n', 'a', 'l', '.', 'd', 'e', 'b', 'u', 'g', '.', 'u', 'i', '.', 'l', 'a', 'u', 'n', 'c', 'h', 'e', 'r', '.', 'S', 't', 'a', 'n', 'd', 'a', 'r', 'd', 'V', 'M', 'T', 'y', 'p', 'e', '/'] := rfl

/-- The fixed segments are the spec §4.1 classpath block around the inserted
version: `String.mk cpPreL ++ v ++ String.mk cpSufL` is the whole document. -/
theorem cpPreL_readable : String.mk cpPreL
    = "<?xml version=\"1.0\" encoding=\"UTF-8\"?>\n<classpath>\n  <classpathentry kind=\"con\" path=\"org.eclipse.jdt.launching.JRE_CONTAINER/org.eclipse.jdt.internal.debug.ui.launcher.StandardVMType/" := rfl

theorem cpSufL_readable : String.mk cpSufL
    = "\">\n    <attributes>\n      <attribute name=\"module\" value=\"true\"/>\n    </attributes>\n  </classpathentry>\n  <classpathentry kind=\"src\" path=\"src\"/>\n  <classpathentry kind=\"output\" path=\"bin\"/>\n</classpath>" := rfl

theorem pjPreL_readable : String.mk pjPreL
    = "<?xml version=\"1.0\" encoding=\"UTF-8\"?>\n<projectDescription>\n  <name>" := rfl

theorem pjSufL_readable : String.mk pjSufL
    = "</name>\n  <comment/>\n  <projects/>\n  <buildSpec>\n    <buildCommand>\n      <name>org.eclipse.jdt.core.javabuilder</name>\n      <arguments/>\n    </buildCommand>\n  </buildSpec>\n  <natures>\n    <nature>org.eclipse.jdt.core.javanature</nature>\n  </natures>\n</projectDescription>" := rfl

/-- For every `javaVersion`, the `.classpath` output is the fixed document
with the attribute-escaped version inserted into the `con` entry's path:
in particular the three entries always appear in the order `con`, `src`,
`output`. -/
theorem createClassPathFile_data (v : String) :
    (createClassPathFile v).data = cpPreL ++ (attEscapeList v.data ++ cpSufL) := by
  simp only [createClassPathFile, endPretty, classpathXml, jreContainerPath,
    renderNode, renderNodes,
    renderAttrs, joinLines, indentChars, childless, inlineText, isEmptyVal, List.all,
    declChars, litD0, litD12, litD13, litD14, litD15, litD16, litD17, litD18,
    litD19, litD20, litD21, litD22, litD23, litD24, litD25,
    attEscapeList, attEscapeSeg, Char.reduceEq, reduceIte, List.append_eq,
    cpPreL, cpSufL, List.cons_append, List.append_assoc, List.nil_append,
    List.append_nil, Bool.and_true, Bool.and_false, Bool.true_and, Bool.false_and,
    List.replicate, Nat.reduceMul, String.data]

/-- For every non-empty `projectName`, the `.project` output is the fixed
document with the text-escaped name inserted into the `name` element. -/
theorem createProjectFile_data (s : String) (h : s ≠ "") :
    (createProjectFile s).data = pjPreL ++ (textEscapeList s.data ++ pjSufL) := by
  simp only [createProjectFile, endPretty, projectXml, renderNode, renderNodes,
    renderAttrs, joinLines, indentChars, childless, inlineText, isEmptyVal, List.all,
    declChars, litD0, litD1, litD2, litD3, litD4, litD5, litD6, litD7, litD8, litD9,
    litD10, litD11,
    textEscapeList, textEscapeSeg, Char.reduceEq, reduceIte, List.append_eq,
    pjPreL, pjSufL, List.cons_append, List.append_assoc, List.nil_append,
    List.append_nil, List.replicate, Nat.reduceMul, String.data,
    decide_eq_false h, Bool.false_and, Bool.and_false, Bool.true_and, Bool.and_true,
    decide_True, eq_self_iff_true, Bool.false_eq_true, if_false, if_true]

/-- With an empty project name the `name` element is rendered self-closing. -/
theorem createProjectFile_empty :
    createProjectFile "" = "<?xml version=\"1.0\" encoding=\"UTF-8\"?>\n<projectDescription>\n  <name/>\n  <comment/>\n  <projects/>\n  <buildSpec>\n    <buildCommand>\n      <name>org.eclipse.jdt.core.javabuilder</name>\n      <arguments/>\n    </buildCommand>\n  </buildSpec>\n  <natures>\n    <nature>org.eclipse.jdt.core.javanature</nature>\n  </natures>\n</projectDescription>" := by
  decide

/-!
Claims C3 and C4
-/

/-- C3: `createProjectFile "Test-Project"` returns exactly the literal XML of
spec §4.1 with the project name `Test-Project` inserted: UTF-8 declaration,
two-space indentation, children `name`, `comment`, `projects`, `buildSpec`
(one `buildCommand` named `org.eclipse.jdt.core.javabuilder` with empty
`arguments`) and `natures` (single nature `org.eclipse.jdt.core.javanature`),
with no trailing newline after the final closing tag. -/
theorem claim_C3 :
    createProjectFile "Test-Project"
      = "<?xml version=\"1.0\" encoding=\"UTF-8\"?>\n<projectDescription>\n  <name>Test-Project</name>\n  <comment/>\n  <projects/>\n  <buildSpec>\n    <buildCommand>\n      <name>org.eclipse.jdt.core.javabuilder</name>\n      <arguments/>\n    </buildCommand>\n  </buildSpec>\n  <natures>\n    <nature>org.eclipse.jdt.core.javanature</nature>\n  </natures>\n</projectDescription>" := by
  decide

/-- C4: `createClassPathFile "JavaSE-10"` returns exactly the literal XML of
spec §4.1 with `JavaSE-10` inserted, and for every `javaVersion` the output
is the fixed document around the escaped version, whose entries appear in
exactly the order `con` (path embedding the version, with the nested
`module=true` attribute element), then `src`, then `output`. -/
theorem claim_C4 :
    createClassPathFile "JavaSE-10"
      = "<?xml version=\"1.0\" encoding=\"UTF-8\"?>\n<classpath>\n  <classpathentry kind=\"con\" path=\"org.eclipse.jdt.launching.JRE_CONTAINER/org.eclipse.jdt.internal.debug.ui.launcher.StandardVMType/JavaSE-10\">\n    <attributes>\n      <attribute name=\"module\" value=\"true\"/>\n    </attributes>\n  </classpathentry>\n  <classpathentry kind=\"src\" path=\"src\"/>\n  <classpathentry kind=\"output\" path=\"bin\"/>\n</classpath>"
    ∧ ∀ v : String,
        (createClassPathFile v).data = cpPreL ++ (attEscapeList v.data ++ cpSufL) := by
  constructor
  · decide
  · exact createClassPathFile_data

/-!
Filesystem model and the folder provisioner

`createProjectFolder` interacts with the filesystem through `fs.existsSync`,
`fs.mkdirSync` and `fs.writeFileSync`.  We model the filesystem as an
association list from path strings to entries (newest binding first), and
record every primitive call in an operation trace, in call order.  The
`existsSync` model also resolves a path written with trailing slashes to the
directory it denotes (POSIX resolution, e.g. `/tmp/` for the directory
`/tmp`), which is how Node's `fs.existsSync` behaves.  Failure of `mkdir` or
`write` themselves (spec §4.2 steps 3-6) is not modelled: per the spec those
are fatal exceptions outside the provisioner's control flow.
-/

inductive Entry where
  | dir
  | file (content : String)
deriving Repr, DecidableEq

/-- A filesystem: path-to-entry bindings, first binding for a path wins. -/
abbrev FS := List (String × Entry)

/-- Look a path up in the filesystem. -/
def fsLookup : FS → String → Option Entry
  | [], _ => none
  | (q, e) :: rest, p => if q = p then some e else fsLookup rest p

/-- Remove all trailing `/` characters of a path. -/
def stripTrailingSlashes (p : String) : String :=
  String.mk (p.data.reverse.dropWhile (fun c => c = '/')).reverse

/-- `fs.existsSync`: the path is bound, or it is a bound directory written
with trailing slashes. -/
def existsSync (fs : FS) (p : String) : Bool :=
  match fsLookup fs p with
  | some _ => true
  | none =>
    match p.data.getLast? with
    | some '/' =>
      match fsLookup fs (stripTrailingSlashes p) with
      | some Entry.dir => true
      | _ => false
    | _ => false

/-- One filesystem interaction of `createProjectFolder`, in call order. -/
inductive FsOp where
  | check (p : String)
  | mkdir (p : String)
  | write (p : String) (content : String)
deriving Repr, DecidableEq

/-- The reported failure of `createProjectFolder` (the shown error message
names the conflicting project). -/
inductive ProvisionError where
  | alreadyExists (name : String)
deriving Repr, DecidableEq

/-- Filesystem plus the trace of operations performed so far. -/
structure St where
  fs : FS
  trace : List FsOp
deriving Repr, DecidableEq

/-- `fs.mkdirSync`: bind the path to a directory, record the call. -/
def mkdirSync (s : St) (p : String) : St :=
  { fs := (p, Entry.dir) :: s.fs, trace := s.trace ++ [FsOp.mkdir p] }

/-- `fs.writeFileSync`: bind the path to a file, record the call. -/
def writeFileSync (s : St) (p : String) (content : String) : St :=
  { fs := (p, Entry.file content) :: s.fs, trace := s.trace ++ [FsOp.write p content] }

/-- Outcome of `createProjectFolder`: resulting filesystem, operation trace,
and the reported error, if any. -/
structure ProvisionResult where
  fs : FS
  trace : List FsOp
  err : Option ProvisionError
deriving Repr, DecidableEq

/-- `createProjectFolder` from `src/extension.ts`: compute
`fullPath = root + '/' + projectName`; if it exists, report
`alreadyExists projectName` and stop; otherwise create the directory, write
`.project` and `.classpath` from the builders, then create `src` and `bin`,
in program order. -/
def createProjectFolder (fs : FS) (root projectName javaVersion : String) :
    ProvisionResult :=
  let fullPath := root ++ "/" ++ projectName
  let s0 : St := { fs := fs, trace := [FsOp.check fullPath] }
  if existsSync fs fullPath then
    { fs := s0.fs, trace := s0.trace,
      err := some (ProvisionError.alreadyExists projectName) }
  else
    let s1 := mkdirSync s0 fullPath
    let projectXMLString := createProjectFile projectName
    let s2 := writeFileSync s1 (fullPath ++ "/.project") projectXMLString
    let classpathXMLString := createClassPathFile javaVersion
    let s3 := writeFileSync s2 (fullPath ++ "/.classpath") classpathXMLString
    let s4 := mkdirSync s3 (fullPath ++ "/src")
    let s5 := mkdirSync s4 (fullPath ++ "/bin")
    { fs := s5.fs, trace := s5.trace, err := none }

/-- The name of `p` as a direct child of directory `dir`, if it is one. -/
def childName (dir p : String) : Option String :=
  if (dir.data ++ ['/']).isPrefixOf p.data then
    let rest := p.data.drop (dir.data.length + 1)
    if rest ≠ [] ∧ rest.all (fun c => c ≠ '/') then some (String.mk rest) else none
  else none

/-- Directory listing: the names of the direct children of `dir` in `fs`. -/
def readdir (fs : FS) (dir : String) : List String :=
  fs.filterMap (fun e => childName dir e.1)

theorem stringMk_data (s : String) : String.mk s.data = s := by
  cases s
  rfl

theorem strAppend_ne_of_data_ne (x : String) {a b : String}
    (h : a.data ≠ b.data) : x ++ a ≠ x ++ b := by
  intro he
  exact h (by simpa using congrArg String.data he)

theorem strAppend_ne_self (x : String) {a : String} (h : a.data ≠ []) :
    x ++ a ≠ x := by
  intro he
  have hd := congrArg String.data he
  simp only [String.data_append] at hd
  have := congrArg List.length hd
  simp only [List.length_append] at this
  exact h (List.length_eq_zero.mp (by omega))

theorem childName_of_append (dir : String) (rest : List Char)
    (h1 : rest ≠ []) (h2 : rest.all (fun c => c ≠ '/') = true) :
    childName dir (dir ++ String.mk ('/' :: rest)) = some (String.mk rest) := by
  have hdata : (dir ++ String.mk ('/' :: rest)).data
      = (dir.data ++ ['/']) ++ rest := by
    simp [String.data_append]
  have hlen : dir.data.length + 1 = (dir.data ++ ['/']).length := by simp
  simp only [childName, hdata]
  rw [if_pos, if_pos]
  · congr 1
    rw [hlen, List.drop_left]
  · constructor
    · rw [hlen, List.drop_left]
      exact h1
    · rw [hlen, List.drop_left]
      exact h2
  · simp [List.isPrefixOf_iff_prefix]

theorem childName_none_of_not_sub (dir p : String)
    (h : ¬ (dir.data ++ ['/']) <+: p.data) : childName dir p = none := by
  simp [childName, List.isPrefixOf_iff_prefix, h]

theorem childName_self (dir : String) : childName dir dir = none := by
  apply childName_none_of_not_sub
  intro h
  have := h.length_le
  simp at this

/-- C1: if the target path already exists, `createProjectFolder` fails with
`alreadyExists projectName` performing no filesystem mutation (only the
existence check appears in the trace, and the filesystem is returned
unchanged); consequently a second call with the arguments of a first
successful call fails that way and leaves the first call's filesystem state
unchanged. -/
theorem claim_C1 (fs : FS) (root projectName javaVersion : String) :
    (existsSync fs (root ++ "/" ++ projectName) = true →
      createProjectFolder fs root projectName javaVersion
        = { fs := fs, trace := [FsOp.check (root ++ "/" ++ projectName)],
            err := some (ProvisionError.alreadyExists projectName) })
    ∧ ((createProjectFolder fs root projectName javaVersion).err = none →
      createProjectFolder (createProjectFolder fs root projectName javaVersion).fs
          root projectName javaVersion
        = { fs := (createProjectFolder fs root projectName javaVersion).fs,
            trace := [FsOp.check (root ++ "/" ++ projectName)],
            err := some (ProvisionError.alreadyExists projectName) }) := by
  constructor
  · intro h
    simp [createProjectFolder, h]
  · intro h
    by_cases hex : existsSync fs (root ++ "/" ++ projectName) = true
    · simp [createProjectFolder, hex] at h
    · have hex' : existsSync fs (root ++ "/" ++ projectName) = false :=
        Bool.eq_false_iff.mpr hex
      have hfs : (createProjectFolder fs root projectName javaVersion).fs
          = (root ++ "/" ++ projectName ++ "/bin", Entry.dir)
            :: (root ++ "/" ++ projectName ++ "/src", Entry.dir)
            :: (root ++ "/" ++ projectName ++ "/.classpath",
                 Entry.file (createClassPathFile javaVersion))
            :: (root ++ "/" ++ projectName ++ "/.project",
                 Entry.file (createProjectFile projectName))
            :: (root ++ "/" ++ projectName, Entry.dir) :: fs := by
        simp [createProjectFolder, hex', mkdirSync, writeFileSync]
      have h1 : root ++ "/" ++ projectName ++ "/bin" ≠ root ++ "/" ++ projectName :=
        strAppend_ne_self _ (by decide)
      have h2 : root ++ "/" ++ projectName ++ "/src" ≠ root ++ "/" ++ projectName :=
        strAppend_ne_self _ (by decide)
      have h3 : root ++ "/" ++ projectName ++ "/.classpath" ≠ root ++ "/" ++ projectName :=
        strAppend_ne_self _ (by decide)
      have h4 : root ++ "/" ++ projectName ++ "/.project" ≠ root ++ "/" ++ projectName :=
        strAppend_ne_self _ (by decide)
      have hex2 : existsSync
          ((root ++ "/" ++ projectName ++ "/bin", Entry.dir)
            :: (root ++ "/" ++ projectName ++ "/src", Entry.dir)
            :: (root ++ "/" ++ projectName ++ "/.classpath",
                 Entry.file (createClassPathFile javaVersion))
            :: (root ++ "/" ++ projectName ++ "/.project",
                 Entry.file (createProjectFile projectName))
            :: (root ++ "/" ++ projectName, Entry.dir) :: fs)
          (root ++ "/" ++ projectName) = true := by
        simp [existsSync, fsLookup, h1, h2, h3, h4]
      rw [hfs]
      simp [createProjectFolder, hex2]

/-- C1 witness: at a concrete filesystem already containing the target. -/
theorem claim_C1_witness :
    existsSync [("/tmp/Test-Project", Entry.dir)] ("/tmp" ++ "/" ++ "Test-Project") = true
    ∧ createProjectFolder [("/tmp/Test-Project", Entry.dir)] "/tmp" "Test-Project" "JavaSE-10"
        = { fs := [("/tmp/Test-Project", Entry.dir)],
            trace := [FsOp.check ("/tmp" ++ "/" ++ "Test-Project")],
            err := some (ProvisionError.alreadyExists "Test-Project") } :=
  ⟨by decide,
    (claim_C1 [("/tmp/Test-Project", Entry.dir)] "/tmp" "Test-Project" "JavaSE-10").1
      (by decide)⟩

/-- C7: in a successful run the trace is exactly: existence check, mkdir of
the target, write of `.project`, write of `.classpath`, mkdir of `src`,
mkdir of `bin`, in this strict sequential order (so no file is written into
a directory not yet created in that run). -/
theorem claim_C7 (fs : FS) (root projectName javaVersion : String)
    (hne : existsSync fs (root ++ "/" ++ projectName) = false) :
    (createProjectFolder fs root projectName javaVersion).trace
      = [FsOp.check (root ++ "/" ++ projectName),
         FsOp.mkdir (root ++ "/" ++ projectName),
         FsOp.write (root ++ "/" ++ projectName ++ "/.project")
           (createProjectFile projectName),
         FsOp.write (root ++ "/" ++ projectName ++ "/.classpath")
           (createClassPathFile javaVersion),
         FsOp.mkdir (root ++ "/" ++ projectName ++ "/src"),
         FsOp.mkdir (root ++ "/" ++ projectName ++ "/bin")]
    ∧ (createProjectFolder fs root projectName javaVersion).err = none := by
  simp [createProjectFolder, hne, mkdirSync, writeFileSync]

/-- C7 witness: a successful concrete run on an empty filesystem. -/
theorem claim_C7_witness :
    existsSync [] ("/tmp" ++ "/" ++ "Test-Project") = false
    ∧ ((createProjectFolder [] "/tmp" "Test-Project" "JavaSE-10").trace
        = [FsOp.check ("/tmp" ++ "/" ++ "Test-Project"),
           FsOp.mkdir ("/tmp" ++ "/" ++ "Test-Project"),
           FsOp.write ("/tmp" ++ "/" ++ "Test-Project" ++ "/.project")
             (createProjectFile "Test-Project"),
           FsOp.write ("/tmp" ++ "/" ++ "Test-Project" ++ "/.classpath")
             (createClassPathFile "JavaSE-10"),
           FsOp.mkdir ("/tmp" ++ "/" ++ "Test-Project" ++ "/src"),
           FsOp.mkdir ("/tmp" ++ "/" ++ "Test-Project" ++ "/bin")]
      ∧ (createProjectFolder [] "/tmp" "Test-Project" "JavaSE-10").err = none) :=
  ⟨by decide, claim_C7 [] "/tmp" "Test-Project" "JavaSE-10" (by decide)⟩

/-- C9: with an empty project name, the target is `root + "/"`, which the
existence check resolves to the existing root directory, so the call takes
the `alreadyExists` branch and mutates nothing. -/
theorem claim_C9 (fs : FS) (root javaVersion : String)
    (hdir : fsLookup fs root = some Entry.dir)
    (hcanon : root.data.reverse.dropWhile (fun c => c = '/') = root.data.reverse)
    (hkey : fsLookup fs (root ++ "/") = none) :
    createProjectFolder fs root "" javaVersion
      = { fs := fs, trace := [FsOp.check (root ++ "/" ++ "")],
          err := some (ProvisionError.alreadyExists "") } := by
  have hstrip : stripTrailingSlashes (root ++ "/") = root := by
    simp only [stripTrailingSlashes, String.data_append, List.reverse_append,
      List.reverse_cons, List.reverse_nil, List.nil_append, List.singleton_append]
    have h1 : List.dropWhile (fun c => decide (c = '/')) ('/' :: root.data.reverse)
        = List.dropWhile (fun c => decide (c = '/')) root.data.reverse := by
      simp
    rw [h1, hcanon, List.reverse_reverse]
  have hfull : root ++ "/" ++ "" = root ++ "/" := by
    apply String.ext
    simp [String.data_append]
  have hex : existsSync fs (root ++ "/") = true := by
    simp only [existsSync, hkey]
    rw [show (root ++ "/").data = root.data ++ ['/'] from by simp [String.data_append]]
    rw [List.getLast?_concat, hstrip, hdir]
    rfl
  have hex' : existsSync fs (root ++ "/" ++ "") = true := by
    rw [hfull]
    exact hex
  simp [createProjectFolder, hex', hex]

/-- C9 witness. -/
theorem claim_C9_witness :
    fsLookup [("/tmp", Entry.dir)] "/tmp" = some Entry.dir
    ∧ createProjectFolder [("/tmp", Entry.dir)] "/tmp" "" "JavaSE-10"
        = { fs := [("/tmp", Entry.dir)], trace := [FsOp.check ("/tmp" ++ "/" ++ "")],
            err := some (ProvisionError.alreadyExists "") } :=
  ⟨by decide,
    claim_C9 [("/tmp", Entry.dir)] "/tmp" "JavaSE-10" (by decide) (by decide) (by decide)⟩

/-- Children listing of the freshly provisioned directory. -/
theorem readdir_after_provision (fs : FS) (fp : String)
    (hsub : ∀ q e, (q, e) ∈ fs → ¬ ((fp ++ "/").data <+: q.data)) (pc cc : String) :
    readdir ((fp ++ "/bin", Entry.dir)
        :: (fp ++ "/src", Entry.dir)
        :: (fp ++ "/.classpath", Entry.file cc)
        :: (fp ++ "/.project", Entry.file pc)
        :: (fp, Entry.dir) :: fs) fp
      = ["bin", "src", ".classpath", ".project"] := by
  have hb : childName fp (fp ++ "/bin") = some "bin" := by
    have := childName_of_append fp ['b', 'i', 'n'] (by decide) (by decide)
    simpa using this
  have hs : childName fp (fp ++ "/src") = some "src" := by
    have := childName_of_append fp ['s', 'r', 'c'] (by decide) (by decide)
    simpa using this
  have hc : childName fp (fp ++ "/.classpath") = some ".classpath" := by
    have := childName_of_append fp ['.', 'c', 'l', 'a', 's', 's', 'p', 'a', 't', 'h']
      (by decide) (by decide)
    simpa using this
  have hp : childName fp (fp ++ "/.project") = some ".project" := by
    have := childName_of_append fp ['.', 'p', 'r', 'o', 'j', 'e', 'c', 't']
      (by decide) (by decide)
    simpa using this
  have hold : ∀ q e, (q, e) ∈ fs → childName fp q = none := by
    intro q e hq
    apply childName_none_of_not_sub
    have h := hsub q e hq
    simpa [String.data_append] using h
  simp only [readdir, List.filterMap_cons, hb, hs, hc, hp, childName_self]
  have : List.filterMap (fun e => childName fp e.1) fs = [] := by
    apply List.filterMap_eq_nil_iff.mpr
    intro e he
    exact hold e.1 e.2 he
  simp [this]

theorem childName_append_none (fp : String) (u w : String)
    (h : ¬ (u.data ++ ['/']) <+: w.data) :
    childName (fp ++ u) (fp ++ w) = none := by
  apply childName_none_of_not_sub
  rw [String.data_append, String.data_append, List.append_assoc]
  simpa [List.prefix_append_right_inj] using h

theorem childName_parent_none (fp u : String) : childName (fp ++ u) fp = none := by
  apply childName_none_of_not_sub
  intro hp
  have hl := hp.length_le
  simp only [String.data_append, List.length_append, List.length_cons,
    List.length_nil] at hl
  omega

theorem childName_none_of_not_under (fp u q : String)
    (hu : ['/'] <+: u.data)
    (hq : ¬ ((fp ++ "/").data <+: q.data)) :
    childName (fp ++ u) q = none := by
  apply childName_none_of_not_sub
  intro hp
  apply hq
  refine List.IsPrefix.trans ?_ hp
  rw [String.data_append, String.data_append, List.append_assoc]
  rw [show ("/" : String).data = ['/'] from rfl]
  exact (List.prefix_append_right_inj fp.data).mpr
    (hu.trans (List.prefix_append u.data ['/']))

/-- In the provisioned filesystem, the fresh `src` and `bin` directories are
empty. -/
theorem readdir_sub_after_provision (fs : FS) (fp : String)
    (hsub : ∀ q e, (q, e) ∈ fs → ¬ ((fp ++ "/").data <+: q.data))
    (u : String) (hu : ['/'] <+: u.data)
    (h1 : ¬ (u.data ++ ['/']) <+: ("/bin" : String).data)
    (h2 : ¬ (u.data ++ ['/']) <+: ("/src" : String).data)
    (h3 : ¬ (u.data ++ ['/']) <+: ("/.classpath" : String).data)
    (h4 : ¬ (u.data ++ ['/']) <+: ("/.project" : String).data)
    (pc cc : String) :
    readdir ((fp ++ "/bin", Entry.dir)
        :: (fp ++ "/src", Entry.dir)
        :: (fp ++ "/.classpath", Entry.file cc)
        :: (fp ++ "/.project", Entry.file pc)
        :: (fp, Entry.dir) :: fs) (fp ++ u) = [] := by
  simp only [readdir, List.filterMap_cons,
    childName_append_none fp u "/bin" h1,
    childName_append_none fp u "/src" h2,
    childName_append_none fp u "/.classpath" h3,
    childName_append_none fp u "/.project" h4,
    childName_parent_none fp u]
  have : List.filterMap (fun e => childName (fp ++ u) e.1) fs = [] := by
    apply List.filterMap_eq_nil_iff.mpr
    intro e he
    exact childName_none_of_not_under fp u e.1 hu (hsub e.1 e.2 he)
  simp [this]

/-- C2: on a filesystem where the target `root/name` does not exist (and, as
on a real filesystem, has nothing beneath it), a successful
`createProjectFolder` leaves `root/name` existing with exactly the four
children `.project`, `.classpath`, `src`, `bin` (no more, no fewer), where
`src` and `bin` are empty directories and the two files hold the builders'
outputs. -/
theorem claim_C2 (fs : FS) (root projectName javaVersion : String)
    (hne : existsSync fs (root ++ "/" ++ projectName) = false)
    (hsub : ∀ q e, (q, e) ∈ fs →
      ¬ ((root ++ "/" ++ projectName ++ "/").data <+: q.data)) :
    (createProjectFolder fs root projectName javaVersion).err = none
    ∧ existsSync (createProjectFolder fs root projectName javaVersion).fs
        (root ++ "/" ++ projectName) = true
    ∧ readdir (createProjectFolder fs root projectName javaVersion).fs
        (root ++ "/" ++ projectName)
      = ["bin", "src", ".classpath", ".project"]
    ∧ fsLookup (createProjectFolder fs root projectName javaVersion).fs
        (root ++ "/" ++ projectName ++ "/.project")
      = some (Entry.file (createProjectFile projectName))
    ∧ fsLookup (createProjectFolder fs root projectName javaVersion).fs
        (root ++ "/" ++ projectName ++ "/.classpath")
      = some (Entry.file (createClassPathFile javaVersion))
    ∧ fsLookup (createProjectFolder fs root projectName javaVersion).fs
        (root ++ "/" ++ projectName ++ "/src") = some Entry.dir
    ∧ fsLookup (createProjectFolder fs root projectName javaVersion).fs
        (root ++ "/" ++ projectName ++ "/bin") = some Entry.dir
    ∧ readdir (createProjectFolder fs root projectName javaVersion).fs
        (root ++ "/" ++ projectName ++ "/src") = []
    ∧ readdir (createProjectFolder fs root projectName javaVersion).fs
        (root ++ "/" ++ projectName ++ "/bin") = [] := by
  have hfs : (createProjectFolder fs root projectName javaVersion).fs
      = (root ++ "/" ++ projectName ++ "/bin", Entry.dir)
        :: (root ++ "/" ++ projectName ++ "/src", Entry.dir)
        :: (root ++ "/" ++ projectName ++ "/.classpath",
             Entry.file (createClassPathFile javaVersion))
        :: (root ++ "/" ++ projectName ++ "/.project",
             Entry.file (createProjectFile projectName))
        :: (root ++ "/" ++ projectName, Entry.dir) :: fs := by
    simp [createProjectFolder, hne, mkdirSync, writeFileSync]
  have hb : root ++ "/" ++ projectName ++ "/bin" ≠ root ++ "/" ++ projectName :=
    strAppend_ne_self _ (by decide)
  have hs : root ++ "/" ++ projectName ++ "/src" ≠ root ++ "/" ++ projectName :=
    strAppend_ne_self _ (by decide)
  have hc : root ++ "/" ++ projectName ++ "/.classpath" ≠ root ++ "/" ++ projectName :=
    strAppend_ne_self _ (by decide)
  have hp : root ++ "/" ++ projectName ++ "/.project" ≠ root ++ "/" ++ projectName :=
    strAppend_ne_self _ (by decide)
  refine ⟨?_, ?_, ?_, ?_, ?_, ?_, ?_, ?_, ?_⟩
  · simp [createProjectFolder, hne, mkdirSync, writeFileSync]
  · rw [hfs]
    simp [existsSync, fsLookup, hb, hs, hc, hp]
  · rw [hfs]
    exact readdir_after_provision fs (root ++ "/" ++ projectName) hsub
      (createProjectFile projectName) (createClassPathFile javaVersion)
  · rw [hfs]
    simp [fsLookup,
      strAppend_ne_of_data_ne (root ++ "/" ++ projectName)
        (show ("/bin" : String).data ≠ ("/.project" : String).data by decide),
      strAppend_ne_of_data_ne (root ++ "/" ++ projectName)
        (show ("/src" : String).data ≠ ("/.project" : String).data by decide),
      strAppend_ne_of_data_ne (root ++ "/" ++ projectName)
        (show ("/.classpath" : String).data ≠ ("/.project" : String).data by decide)]
  · rw [hfs]
    simp [fsLookup,
      strAppend_ne_of_data_ne (root ++ "/" ++ projectName)
        (show ("/bin" : String).data ≠ ("/.classpath" : String).data by decide),
      strAppend_ne_of_data_ne (root ++ "/" ++ projectName)
        (show ("/src" : String).data ≠ ("/.classpath" : String).data by decide)]
  · rw [hfs]
    simp [fsLookup,
      strAppend_ne_of_data_ne (root ++ "/" ++ projectName)
        (show ("/bin" : String).data ≠ ("/src" : String).data by decide)]
  · rw [hfs]
    simp [fsLookup]
  · rw [hfs]
    exact readdir_sub_after_provision fs (root ++ "/" ++ projectName) hsub "/src"
      (by decide) (by decide) (by decide) (by decide) (by decide)
      (createProjectFile projectName) (createClassPathFile javaVersion)
  · rw [hfs]
    exact readdir_sub_after_provision fs (root ++ "/" ++ projectName) hsub "/bin"
      (by decide) (by decide) (by decide) (by decide) (by decide)
      (createProjectFile projectName) (createClassPathFile javaVersion)

/-- C2 witness: concrete successful run on the empty filesystem. -/
theorem claim_C2_witness :
    existsSync [] ("/tmp" ++ "/" ++ "Test-Project") = false
    ∧ ((createProjectFolder [] "/tmp" "Test-Project" "JavaSE-10").err = none
    ∧ existsSync (createProjectFolder [] "/tmp" "Test-Project" "JavaSE-10").fs
        ("/tmp" ++ "/" ++ "Test-Project") = true
    ∧ readdir (createProjectFolder [] "/tmp" "Test-Project" "JavaSE-10").fs
        ("/tmp" ++ "/" ++ "Test-Project")
      = ["bin", "src", ".classpath", ".project"]
    ∧ fsLookup (createProjectFolder [] "/tmp" "Test-Project" "JavaSE-10").fs
        ("/tmp" ++ "/" ++ "Test-Project" ++ "/.project")
      = some (Entry.file (createProjectFile "Test-Project"))
    ∧ fsLookup (createProjectFolder [] "/tmp" "Test-Project" "JavaSE-10").fs
        ("/tmp" ++ "/" ++ "Test-Project" ++ "/.classpath")
      = some (Entry.file (createClassPathFile "JavaSE-10"))
    ∧ fsLookup (createProjectFolder [] "/tmp" "Test-Project" "JavaSE-10").fs
        ("/tmp" ++ "/" ++ "Test-Project" ++ "/src") = some Entry.dir
    ∧ fsLookup (createProjectFolder [] "/tmp" "Test-Project" "JavaSE-10").fs
        ("/tmp" ++ "/" ++ "Test-Project" ++ "/bin") = some Entry.dir
    ∧ readdir (createProjectFolder [] "/tmp" "Test-Project" "JavaSE-10").fs
        ("/tmp" ++ "/" ++ "Test-Project" ++ "/src") = []
    ∧ readdir (createProjectFolder [] "/tmp" "Test-Project" "JavaSE-10").fs
        ("/tmp" ++ "/" ++ "Test-Project" ++ "/bin") = []) :=
  ⟨by decide, claim_C2 [] "/tmp" "Test-Project" "JavaSE-10" (by decide) (by simp)⟩

/-!
Workspace helpers (from `src/extension.ts`)
-/

/-- Node's `path.basename` (POSIX): trailing slashes are ignored, then the
last component is returned ( `""` for an empty or all-slash path). Modelled
from Node's implementation: scan from the end, skip slashes, take the run of
non-slash characters. -/
def basename (p : String) : String :=
  String.mk (((p.data.reverse.dropWhile (fun c => c = '/')).takeWhile
    (fun c => c ≠ '/')).reverse)

/-- A workspace folder is identified here by its `uri.fsPath` string. -/
abbrev WorkspaceFolder := String

/-- `findFolderInWorkspace` from `src/extension.ts`: scan `folders` in order
and return the first whose basename is `baseName`, else `undefined`
(`none`). -/
def findFolderInWorkspace (baseName : String) :
    List WorkspaceFolder → Option String
  | [] => none
  | f :: rest =>
    if basename f = baseName then some f else findFolderInWorkspace baseName rest

/-- Outcome of `getWorkspaceRoot`: either a normal return (`ok`), or the
TypeError thrown by dereferencing `folders[0].uri` on an empty folder
list. -/
inductive RootOutcome where
  | ok (root : Option String)
  | typeError
deriving Repr, DecidableEq

/-- `getWorkspaceRoot` from `src/extension.ts`.  With `multi` true it
returns `undefined` for an absent or empty `baseName`, else the result of
`findFolderInWorkspace` (showing an error message and returning `undefined`
when that is `undefined`).  With `multi` false it returns
`folders[0].uri.fsPath` unconditionally, which throws a TypeError when
`folders` is empty. -/
def getWorkspaceRoot (folders : List WorkspaceFolder) (multi : Bool)
    (baseName : Option String) : RootOutcome :=
  if multi then
    if baseName = some "" ∨ baseName = none then
      RootOutcome.ok none
    else
      match baseName with
      | some b =>
        match findFolderInWorkspace b folders with
        | some folderPath => RootOutcome.ok (some folderPath)
        | none => RootOutcome.ok none
      | none => RootOutcome.ok none
  else
    match folders with
    | [] => RootOutcome.typeError
    | f :: _ => RootOutcome.ok (some f)

/-- C8: `findFolderInWorkspace` returns the `fsPath` of the first folder in
list order whose basename equals `baseName` (`List.find?` of the basename
test), and `undefined` when no folder matches — in particular on the empty
list. -/
theorem claim_C8 (baseName : String) (folders : List WorkspaceFolder) :
    findFolderInWorkspace baseName folders
      = folders.find? (fun f => basename f = baseName)
    ∧ findFolderInWorkspace baseName [] = none
    ∧ ((∀ f ∈ folders, basename f ≠ baseName) →
        findFolderInWorkspace baseName folders = none) := by
  refine ⟨?_, rfl, ?_⟩
  · induction folders with
    | nil => rfl
    | cons f rest ih =>
      by_cases h : basename f = baseName
      · simp [findFolderInWorkspace, List.find?, h]
      · simp [findFolderInWorkspace, List.find?, h, ih]
  · intro hnone
    induction folders with
    | nil => rfl
    | cons f rest ih =>
      have hf : basename f ≠ baseName := hnone f (by simp)
      simp only [findFolderInWorkspace, if_neg hf]
      exact ih (fun g hg => hnone g (by simp [hg]))

/-- C8 witness: a concrete two-folder workspace where the second folder
matches. -/
theorem claim_C8_witness :
    (findFolderInWorkspace "proj" ["/home/a/work", "/home/b/proj"]
        = (["/home/a/work", "/home/b/proj"].find? (fun f => basename f = "proj"))
      ∧ findFolderInWorkspace "proj" [] = none
      ∧ ((∀ f ∈ ["/home/a/work", "/home/b/proj"], basename f ≠ "proj") →
          findFolderInWorkspace "proj" ["/home/a/work", "/home/b/proj"] = none))
    ∧ findFolderInWorkspace "proj" ["/home/a/work", "/home/b/proj"]
        = some "/home/b/proj" :=
  ⟨claim_C8 "proj" ["/home/a/work", "/home/b/proj"], by decide⟩

/-- C10: with `multi = false`, `getWorkspaceRoot` returns
`folders[0].uri.fsPath` regardless of `baseName` whenever the folder list is
non-empty, and the `folders[0]` dereference failure (TypeError) occurs
exactly when the list is empty. -/
theorem claim_C10 (folders : List WorkspaceFolder) (b b' : Option String) :
    (∀ f rest, folders = f :: rest →
      getWorkspaceRoot folders false b = RootOutcome.ok (some f))
    ∧ getWorkspaceRoot folders false b = getWorkspaceRoot folders false b'
    ∧ (getWorkspaceRoot folders false b = RootOutcome.typeError ↔ folders = []) := by
  refine ⟨?_, ?_, ?_⟩
  · intro f rest hf
    simp [getWorkspaceRoot, hf]
  · cases folders <;> simp [getWorkspaceRoot]
  · cases folders <;> simp [getWorkspaceRoot]

/-- C10 witness: concrete single-folder and empty workspaces. -/
theorem claim_C10_witness :
    ((∀ f rest, ["/ws"] = f :: rest →
        getWorkspaceRoot ["/ws"] false none = RootOutcome.ok (some f))
      ∧ getWorkspaceRoot ["/ws"] false none = getWorkspaceRoot ["/ws"] false (some "x")
      ∧ (getWorkspaceRoot ["/ws"] false none = RootOutcome.typeError ↔ (["/ws"] : List WorkspaceFolder) = []))
    ∧ getWorkspaceRoot ["/ws"] false none = RootOutcome.ok (some "/ws")
    ∧ getWorkspaceRoot [] false none = RootOutcome.typeError :=
  ⟨claim_C10 ["/ws"] none (some "x"), by decide, by decide⟩

/-- C6: the descriptor builders are total (they are plain functions into
`String`, defined for every input and embedded without any failure case)
and deterministic/pure: equal inputs give equal outputs, and they take no
filesystem (or other state) argument, so they cannot mutate any state. -/
theorem claim_C6 (s t : String) (h : s = t) :
    createProjectFile s = createProjectFile t
    ∧ createClassPathFile s = createClassPathFile t := by
  rw [h]
  exact ⟨rfl, rfl⟩

/-- C6 witness. -/
theorem claim_C6_witness :
    ("a" : String) = "a"
    ∧ (createProjectFile "a" = createProjectFile "a"
      ∧ createClassPathFile "a" = createClassPathFile "a") :=
  ⟨rfl, claim_C6 "a" "a" rfl⟩

/-!
An XML parser, for the round-trip property

A small but genuine XML reader: a lexer that splits an input character list
into markup tokens and raw text runs, and a stack-based tree builder that
decodes character entities in text and attribute values. It is used to state
and prove that re-parsing the builders' output reconstructs the injected
values exactly.
-/

/-- Decode the XML character entities `&amp;` `&lt;` `&gt;` `&quot;`
`&apos;`; any other text is passed through. -/
def xmlUnescape : List Char → List Char
  | [] => []
  | '&' :: 'a' :: 'm' :: 'p' :: ';' :: r => '&' :: xmlUnescape r
  | '&' :: 'l' :: 't' :: ';' :: r => '<' :: xmlUnescape r
  | '&' :: 'g' :: 't' :: ';' :: r => '>' :: xmlUnescape r
  | '&' :: 'q' :: 'u' :: 'o' :: 't' :: ';' :: r => '"' :: xmlUnescape r
  | '&' :: 'a' :: 'p' :: 'o' :: 's' :: ';' :: r => '\'' :: xmlUnescape r
  | c :: rest => c :: xmlUnescape rest

/-- The generic step of `xmlUnescape` on a character that does not start an
entity. -/
theorem xmlUnescape_cons_of_ne (c : Char) (rest : List Char) (h : c ≠ '&') :
    xmlUnescape (c :: rest) = c :: xmlUnescape rest := by
  rw [xmlUnescape.eq_def]
  split <;> simp_all

/-- Lexer tokens: an opening tag (possibly self-closing) with its raw
attribute list, a closing tag, or a raw (still escaped) text run. -/
inductive Tok where
  | tagOpen (name : String) (attrs : List (String × String)) (selfClose : Bool)
  | close (name : String)
  | text (s : String)
deriving Repr, DecidableEq

/-- Characters allowed in a tag name. -/
def nameChar (c : Char) : Bool := c ≠ ' ' && c ≠ '/' && c ≠ '>'

/-- Characters allowed in an attribute name. -/
def attrNameChar (c : Char) : Bool := c ≠ '=' && c ≠ ' ' && c ≠ '/' && c ≠ '>'

/-- Result of reading an attribute list: the attributes, whether the tag was
self-closing, whether reading succeeded, and the remaining input. -/
structure AttrsResult where
  attrs : List (String × String)
  selfClose : Bool
  ok : Bool
  rest : List Char
deriving Repr, DecidableEq

/-- Read the attribute list of an opening tag, up to and including the
closing `>` (or `/>`); attribute values are entity-decoded.  Quoted values
are scanned by quote matching, so `>` inside a value is handled. -/
def parseAttrs : List Char → AttrsResult
  | [] => ⟨[], false, false, []⟩
  | c :: rest =>
    if c = '>' then ⟨[], false, true, rest⟩
    else if c = '/' then
      if rest.take 1 = ['>'] then ⟨[], true, true, rest.drop 1⟩
      else ⟨[], false, false, rest⟩
    else if c = ' ' then
      let r1 := rest.dropWhile attrNameChar
      if r1.take 2 = ['=', '"'] then
        let r2 := r1.drop 2
        let v := r2.takeWhile (fun ch => ch ≠ '"')
        let r2x := r2.dropWhile (fun ch => ch ≠ '"')
        if r2x.take 1 = ['"'] then
          let pa := parseAttrs (r2x.drop 1)
          ⟨(String.mk (rest.takeWhile attrNameChar), String.mk (xmlUnescape v)) :: pa.attrs,
           pa.selfClose, pa.ok, pa.rest⟩
        else ⟨[], false, false, rest⟩
      else ⟨[], false, false, rest⟩
    else ⟨[], false, false, rest⟩
termination_by l => l.length
decreasing_by
  have e1 : (List.dropWhile attrNameChar cs).length ≤ cs.length :=
    (List.dropWhile_sublist _).length_le
  have e2 : (List.dropWhile (fun ch => decide (ch ≠ '"'))
        (List.drop 2 (List.dropWhile attrNameChar cs))).length
      ≤ (List.drop 2 (List.dropWhile attrNameChar cs)).length :=
    (List.dropWhile_sublist _).length_le
  simp only [List.length_drop, List.length_cons] at e1 e2 ⊢
  omega

/-- `parseAttrs` never lengthens the input. -/
theorem parseAttrs_length_aux (n : Nat) :
    ∀ l : List Char, l.length ≤ n → (parseAttrs l).rest.length ≤ l.length := by
  induction n with
  | zero =>
    intro l h
    have hl : l = [] := List.length_eq_zero.mp (by omega)
    subst hl
    simp [parseAttrs.eq_def]
  | succ n ih =>
    intro l hlen
    match l with
    | [] => simp [parseAttrs.eq_def]
    | c :: rest =>
      rw [parseAttrs.eq_def]
      by_cases h1 : c = '>'
      · simp [h1]
      · by_cases h2 : c = '/'
        · by_cases h3 : rest.take 1 = ['>']
          · simp only [h1, h2, h3, if_true, if_false, Char.reduceEq, reduceIte]
            simp [List.length_drop]
            omega
          · simp [h1, h2, h3]
        · by_cases h4 : c = ' '
          · simp only [h1, h2, h4, if_true, if_false, Char.reduceEq, reduceIte]
            split
            · split
              · have e1 : (List.dropWhile attrNameChar rest).length ≤ rest.length :=
                  (List.dropWhile_sublist _).length_le
                have e2 : (((rest.dropWhile attrNameChar).drop 2).dropWhile
                      (fun ch => ch ≠ '"')).length
                    ≤ ((rest.dropWhile attrNameChar).drop 2).length :=
                  (List.dropWhile_sublist _).length_le
                have harg := ih ((((rest.dropWhile attrNameChar).drop 2).dropWhile
                      (fun ch => ch ≠ '"')).drop 1)
                  (by
                    simp only [List.length_drop, List.length_cons] at *
                    omega)
                simp only [List.length_drop, List.length_cons] at *
                omega
              · simp
            · simp
          · simp [h1, h2, h4]

theorem parseAttrs_length (l : List Char) :
    (parseAttrs l).rest.length ≤ l.length :=
  parseAttrs_length_aux l.length l (Nat.le_refl _)

/-- The lexer: split the input into a declaration (skipped), opening tags,
closing tags and raw text runs; adjacent text characters merge into one
token. -/
def lexChars : List Char → Option (List Tok)
  | [] => some []
  | c :: rest =>
    if c = '<' then
      if rest.take 1 = ['?'] then
        let rd := (rest.drop 1).dropWhile (fun x => x ≠ '?')
        if rd.take 2 = ['?', '>'] then lexChars (rd.drop 2) else none
      else if rest.take 1 = ['/'] then
        let rd := (rest.drop 1).dropWhile nameChar
        if rd.take 1 = ['>'] then
          (lexChars (rd.drop 1)).map
            (fun ts => Tok.close (String.mk ((rest.drop 1).takeWhile nameChar)) :: ts)
        else none
      else
        let pa := parseAttrs (rest.dropWhile nameChar)
        if pa.ok then
          (lexChars pa.rest).map (fun ts =>
            Tok.tagOpen (String.mk (rest.takeWhile nameChar)) pa.attrs pa.selfClose :: ts)
        else none
    else
      match lexChars rest with
      | some (Tok.text t :: ts) => some (Tok.text (String.mk (c :: t.data)) :: ts)
      | some ts => some (Tok.text (String.mk [c]) :: ts)
      | none => none
termination_by l => l.length
decreasing_by
  · have e1 : ((cs.drop 1).dropWhile (fun x => x ≠ '?')).length
        ≤ (cs.drop 1).length := (List.dropWhile_sublist _).length_le
    simp only [List.length_drop, List.length_cons] at e1 ⊢
    omega
  · have e1 : ((cs.drop 1).dropWhile nameChar).length
        ≤ (cs.drop 1).length := (List.dropWhile_sublist _).length_le
    simp only [List.length_drop, List.length_cons] at e1 ⊢
    omega
  · have e1 : (parseAttrs (cs.dropWhile nameChar)).rest.length
        ≤ (cs.dropWhile nameChar).length := parseAttrs_length _
    have e2 : (cs.dropWhile nameChar).length ≤ cs.length :=
      (List.dropWhile_sublist _).length_le
    simp only [List.length_cons]
    omega
  · simp only [List.length_cons]
    omega

/-- One open element being assembled: its name, attributes, and the children
accumulated so far by its parent (in reverse). -/
structure Frame where
  name : String
  attrs : List (String × String)
  elder : List XmlNode
deriving Repr

/-- Assemble the token stream into a forest, decoding entities in text;
`st` is the stack of open elements and `acc` the reversed children of the
innermost one. -/
def build : List Tok → List Frame → List XmlNode → Option (List XmlNode)
  | [], [], acc => some acc.reverse
  | [], _ :: _, _ => none
  | Tok.text s :: ts, st, acc =>
    build ts st (XmlNode.text (String.mk (xmlUnescape s.data)) :: acc)
  | Tok.tagOpen n a true :: ts, st, acc => build ts st (XmlNode.elem n a [] :: acc)
  | Tok.tagOpen n a false :: ts, st, acc => build ts (⟨n, a, acc⟩ :: st) []
  | Tok.close _ :: _, [], _ => none
  | Tok.close n :: ts, fr :: st, acc =>
    if fr.name = n then
      build ts st (XmlNode.elem n fr.attrs acc.reverse :: fr.elder)
    else none

/-- Is this node an element? -/
def isElem : XmlNode → Bool
  | .elem _ _ _ => true
  | .text _ => false

/-- Parse an XML document: lex (the input length bounds the number of lexer
steps, each of which consumes input), build the forest, and return its
unique element. -/
def parseXml (s : String) : Option XmlNode :=
  match lexChars s.data with
  | some toks =>
    match build toks [] [] with
    | some ns =>
      match ns.filter isElem with
      | [x] => some x
      | _ => none
    | none => none
  | none => none

/-- The children of an element node. -/
def elemChildren : XmlNode → List XmlNode
  | .elem _ _ cs => cs
  | .text _ => []

/-- Is this node an element named `nm`? -/
def isElemNamed (nm : String) : XmlNode → Bool
  | .elem n _ _ => n = nm
  | .text _ => false

/-- The first child element named `nm`. -/
def childElem (t : XmlNode) (nm : String) : Option XmlNode :=
  (elemChildren t).find? (isElemNamed nm)

/-- The concatenated text of the text nodes in a list. -/
def textsOf : List XmlNode → List Char
  | [] => []
  | XmlNode.text s :: rest => s.data ++ textsOf rest
  | XmlNode.elem _ _ _ :: rest => textsOf rest

/-- The text content of an element: its text children, concatenated. -/
def textContent (t : XmlNode) : String := String.mk (textsOf (elemChildren t))

/-- The first child that is an element. -/
def firstElemChild (t : XmlNode) : Option XmlNode := (elemChildren t).find? isElem

/-- The value of attribute `nm` of an element. -/
def attrOf (t : XmlNode) (nm : String) : Option String :=
  match t with
  | XmlNode.elem _ attrs _ => (attrs.find? (fun a => a.1 = nm)).map (fun a => a.2)
  | XmlNode.text _ => none

/-!
Escaping and lexing lemmas
-/

/-- Attribute escaping never produces a quote, so quote scanning stops
exactly at the closing quote. -/
theorem attEscape_span_quot (l r : List Char) :
    (attEscapeList l ++ '"' :: r).takeWhile (fun ch => ch ≠ '"') = attEscapeList l
    ∧ (attEscapeList l ++ '"' :: r).dropWhile (fun ch => ch ≠ '"') = '"' :: r := by
  induction l with
  | nil => simp [attEscapeList]
  | cons c cs ih =>
    simp only [attEscapeList, List.append_assoc]
    unfold attEscapeSeg
    split_ifs with h1 h2 h3 <;>
      simp_all [List.takeWhile_cons, List.dropWhile_cons, Char.reduceEq]

theorem attEscape_takeWhile_quot (l r : List Char) :
    (attEscapeList l ++ '"' :: r).takeWhile (fun ch => ch ≠ '"') = attEscapeList l :=
  (attEscape_span_quot l r).1

theorem attEscape_dropWhile_quot (l r : List Char) :
    (attEscapeList l ++ '"' :: r).dropWhile (fun ch => ch ≠ '"') = '"' :: r :=
  (attEscape_span_quot l r).2

theorem quotPred_eq :
    (fun ch : Char => !decide (ch = '"')) = (fun ch : Char => decide (ch ≠ '"')) := by
  funext ch
  simp

theorem attEscape_takeWhile_quotB (l r : List Char) :
    (attEscapeList l ++ '"' :: r).takeWhile (fun ch => !decide (ch = '"'))
      = attEscapeList l := by
  simp only [quotPred_eq]
  exact (attEscape_span_quot l r).1

theorem attEscape_dropWhile_quotB (l r : List Char) :
    (attEscapeList l ++ '"' :: r).dropWhile (fun ch => !decide (ch = '"'))
      = '"' :: r := by
  simp only [quotPred_eq]
  exact (attEscape_span_quot l r).2

/-- Text escaping never produces `<`. -/
theorem textEscape_all_ne_lt (l : List Char) :
    (textEscapeList l).all (fun c => c ≠ '<') = true := by
  induction l with
  | nil => rfl
  | cons c cs ih =>
    simp only [textEscapeList, List.all_append, ih, Bool.and_true]
    unfold textEscapeSeg
    split_ifs with h1 h2 h3 <;> simp_all

/-- Text escaping of a non-empty string is non-empty. -/
theorem textEscape_ne_nil (c : Char) (cs : List Char) :
    textEscapeList (c :: cs) ≠ [] := by
  simp only [textEscapeList]
  unfold textEscapeSeg
  split_ifs <;> simp

/-- Decoding inverts text escaping. -/
theorem xmlUnescape_textEscape (l : List Char) :
    xmlUnescape (textEscapeList l) = l := by
  induction l with
  | nil => rfl
  | cons c cs ih =>
    simp only [textEscapeList]
    unfold textEscapeSeg
    split_ifs with h1 h2 h3
    · subst h1
      simp [xmlUnescape, ih]
    · subst h2
      simp [xmlUnescape, ih]
    · subst h3
      simp [xmlUnescape, ih]
    · rw [List.singleton_append, xmlUnescape_cons_of_ne c _ h1, ih]

/-- Decoding inverts attribute escaping. -/
theorem xmlUnescape_attEscape (l : List Char) :
    xmlUnescape (attEscapeList l) = l := by
  induction l with
  | nil => rfl
  | cons c cs ih =>
    simp only [attEscapeList]
    unfold attEscapeSeg
    split_ifs with h1 h2 h3
    · subst h1
      simp [xmlUnescape, ih]
    · subst h2
      simp [xmlUnescape, ih]
    · subst h3
      simp [xmlUnescape, ih]
    · rw [List.singleton_append, xmlUnescape_cons_of_ne c _ h1, ih]

/-!
Step equations for `parseAttrs` and `lexChars`, used to evaluate them
symbolically (the raw unfolding equation would unfold without bound).
-/

theorem parseAttrs_nil : parseAttrs [] = ⟨[], false, false, []⟩ := by
  rw [parseAttrs.eq_def]

theorem parseAttrs_gt (rest : List Char) :
    parseAttrs ('>' :: rest) = ⟨[], false, true, rest⟩ := by
  rw [parseAttrs.eq_def]
  simp

theorem parseAttrs_sp (rest : List Char)
    (h5 : (rest.dropWhile attrNameChar).take 2 = ['=', '"'])
    (h6 : (((rest.dropWhile attrNameChar).drop 2).dropWhile
        (fun ch => ch ≠ '"')).take 1 = ['"']) :
    parseAttrs (' ' :: rest)
      = ⟨(String.mk (rest.takeWhile attrNameChar),
           String.mk (xmlUnescape (((rest.dropWhile attrNameChar).drop 2).takeWhile
             (fun ch => ch ≠ '"'))))
          :: (parseAttrs ((((rest.dropWhile attrNameChar).drop 2).dropWhile
                (fun ch => ch ≠ '"')).drop 1)).attrs,
         (parseAttrs ((((rest.dropWhile attrNameChar).drop 2).dropWhile
             (fun ch => ch ≠ '"')).drop 1)).selfClose,
         (parseAttrs ((((rest.dropWhile attrNameChar).drop 2).dropWhile
             (fun ch => ch ≠ '"')).drop 1)).ok,
         (parseAttrs ((((rest.dropWhile attrNameChar).drop 2).dropWhile
             (fun ch => ch ≠ '"')).drop 1)).rest⟩ := by
  rw [parseAttrs.eq_def]
  simp_all

theorem parseAttrs_slash (rest : List Char) :
    parseAttrs ('/' :: '>' :: rest) = ⟨[], true, true, rest⟩ := by
  rw [parseAttrs.eq_def]
  simp

theorem lexChars_nil : lexChars [] = some [] := by
  rw [lexChars.eq_def]

theorem lexChars_decl (rest : List Char) (h0 : rest.take 1 = ['?'])
    (h : ((rest.drop 1).dropWhile (fun x => x ≠ '?')).take 2 = ['?', '>']) :
    lexChars ('<' :: rest)
      = lexChars (((rest.drop 1).dropWhile (fun x => x ≠ '?')).drop 2) := by
  rw [lexChars.eq_def]
  simp_all

theorem lexChars_close (rest : List Char) (h0 : rest.take 1 = ['/'])
    (h : ((rest.drop 1).dropWhile nameChar).take 1 = ['>']) :
    lexChars ('<' :: rest)
      = (lexChars (((rest.drop 1).dropWhile nameChar).drop 1)).map
          (fun ts => Tok.close (String.mk ((rest.drop 1).takeWhile nameChar)) :: ts) := by
  rw [lexChars.eq_def]
  simp_all

theorem lexChars_open (rest : List Char)
    (h0 : rest.take 1 ≠ ['?']) (h1 : rest.take 1 ≠ ['/'])
    (h2 : (parseAttrs (rest.dropWhile nameChar)).ok = true) :
    lexChars ('<' :: rest)
      = (lexChars (parseAttrs (rest.dropWhile nameChar)).rest).map (fun ts =>
          Tok.tagOpen (String.mk (rest.takeWhile nameChar))
            (parseAttrs (rest.dropWhile nameChar)).attrs
            (parseAttrs (rest.dropWhile nameChar)).selfClose :: ts) := by
  rw [lexChars.eq_def]
  simp [h0, h1, h2]

theorem lexChars_textStep (c : Char) (rest : List Char) (hc : ¬ c = '<') :
    lexChars (c :: rest)
      = match lexChars rest with
        | some (Tok.text t :: ts) => some (Tok.text (String.mk (c :: t.data)) :: ts)
        | some ts => some (Tok.text (String.mk [c]) :: ts)
        | none => none := by
  rw [lexChars.eq_def]
  simp [hc]

/-- Lexing a text run: a non-empty chunk with no `<` followed by input that
lexes to a token list not starting with text becomes one text token. -/
theorem lexChars_text_append :
    ∀ l : List Char, l ≠ [] → l.all (fun c => c ≠ '<') = true →
      ∀ r ts, lexChars r = some ts →
        (∀ u us, ts = Tok.text u :: us → False) →
        lexChars (l ++ r) = some (Tok.text (String.mk l) :: ts) := by
  intro l
  induction l with
  | nil => intro h; exact absurd rfl h
  | cons c cs ih =>
    intro _ hno r ts hr hts
    obtain ⟨hc, hno2⟩ : ¬(c = '<') ∧ cs.all (fun c => c ≠ '<') = true := by
      simpa using hno
    cases cs with
    | nil =>
      rw [List.singleton_append, lexChars_textStep c r hc, hr]
      cases ts with
      | nil => rfl
      | cons t ts2 =>
        cases t with
        | text u => exact absurd rfl (hts u ts2)
        | close nm => rfl
        | tagOpen nm a sc => rfl
    | cons c2 cs2 =>
      have hrec := ih (by simp) hno2 r ts hr hts
      rw [List.cons_append, lexChars_textStep c _ hc, hrec]

/-!
Literal forms of the strings appearing in the lexed documents.
-/

theorem mkLit0 : String.mk ['p', 'r', 'o', 'j', 'e', 'c', 't', 'D', 'e', 's', 'c', 'r', 'i', 'p', 't', 'i', 'o', 'n'] = "projectDescription" := rfl

theorem mkLit1 : String.mk ['n', 'a', 'm', 'e'] = "name" := rfl

theorem mkLit2 : String.mk ['c', 'o', 'm', 'm', 'e', 'n', 't'] = "comment" := rfl

theorem mkLit3 : String.mk ['p', 'r', 'o', 'j', 'e', 'c', 't', 's'] = "projects" := rfl

theorem mkLit4 : String.mk ['b', 'u', 'i', 'l', 'd', 'S', 'p', 'e', 'c'] = "buildSpec" := rfl

theorem mkLit5 : String.mk ['b', 'u', 'i', 'l', 'd', 'C', 'o', 'm', 'm', 'a', 'n', 'd'] = "buildCommand" := rfl

theorem mkLit6 : String.mk ['a', 'r', 'g', 'u', 'm', 'e', 'n', 't', 's'] = "arguments" := rfl

theorem mkLit7 : String.mk ['n', 'a', 't', 'u', 'r', 'e', 's'] = "natures" := rfl

theorem mkLit8 : String.mk ['n', 'a', 't', 'u', 'r', 'e'] = "nature" := rfl

theorem mkLit9 : String.mk ['c', 'l', 'a', 's', 's', 'p', 'a', 't', 'h'] = "classpath" := rfl

theorem mkLit10 : String.mk ['c', 'l', 'a', 's', 's', 'p', 'a', 't', 'h', 'e', 'n', 't', 'r', 'y'] = "classpathentry" := rfl

theorem mkLit11 : String.mk ['a', 't', 't', 'r', 'i', 'b', 'u', 't', 'e', 's'] = "attributes" := rfl

theorem mkLit12 : String.mk ['a', 't', 't', 'r', 'i', 'b', 'u', 't', 'e'] = "attribute" := rfl

theorem mkLit13 : String.mk ['k', 'i', 'n', 'd'] = "kind" := rfl

theorem mkLit14 : String.mk ['c', 'o', 'n'] = "con" := rfl

theorem mkLit15 : String.mk ['p', 'a', 't', 'h'] = "path" := rfl

theorem mkLit16 : String.mk ['s', 'r', 'c'] = "src" := rfl

theorem mkLit17 : String.mk ['o', 'u', 't', 'p', 'u', 't'] = "output" := rfl

theorem mkLit18 : String.mk ['b', 'i', 'n'] = "bin" := rfl

theorem mkLit19 : String.mk ['m', 'o', 'd', 'u', 'l', 'e'] = "module" := rfl

theorem mkLit20 : String.mk ['v', 'a', 'l', 'u', 'e'] = "value" := rfl

theorem mkLit21 : String.mk ['t', 'r', 'u', 'e'] = "true" := rfl

theorem mkLit22 : String.mk ['o', 'r', 'g', '.', 'e', 'c', 'l', 'i', 'p', 's', 'e', '.', 'j', 'd', 't', '.', 'c', 'o', 'r', 'e', '.', 'j', 'a', 'v', 'a', 'b', 'u', 'i', 'l', 'd', 'e', 'r'] = "org.eclipse.jdt.core.javabuilder" := rfl

theorem mkLit23 : String.mk ['o', 'r', 'g', '.', 'e', 'c', 'l', 'i', 'p', 's', 'e', '.', 'j', 'd', 't', '.', 'c', 'o', 'r', 'e', '.', 'j', 'a', 'v', 'a', 'n', 'a', 't', 'u', 'r', 'e'] = "org.eclipse.jdt.core.javanature" := rfl

theorem mkLit24 : String.mk ['\n'] = "\n" := rfl

theorem mkLit25 : String.mk ['\n', ' ', ' '] = "\n  " := rfl

theorem mkLit26 : String.mk ['\n', ' ', ' ', ' ', ' '] = "\n    " := rfl

theorem mkLit27 : String.mk ['\n', ' ', ' ', ' ', ' ', ' ', ' '] = "\n      " := rfl

theorem mkLit28 : String.mk ['o', 'r', 'g', '.', 'e', 'c', 'l', 'i', 'p', 's', 'e', '.', 'j', 'd', 't', '.', 'l', 'a', 'u', 'n', 'c', 'h', 'i', 'n', 'g', '.', 'J', 'R', 'E', '_', 'C', 'O', 'N', 'T', 'A', 'I', 'N', 'E', 'R', '/', 'o', 'r', 'g', '.', 'e', 'c', 'l', 'i', 'p', 's', 'e', '.', 'j', 'd', 't', '.', 'i', 'n', 't', 'e', 'r', 'n', 'a', 'l', '.', 'd', 'e', 'b', 'u', 'g', '.', 'u', 'i', '.', 'l', 'a', 'u', 'n', 'c', 'h', 'e', 'r', '.', 'S', 't', 'a', 'n', 'd', 'a', 'r', 'd', 'V', 'M', 'T', 'y', 'p', 'e', '/'] = "org.eclipse.jdt.launching.JRE_CONTAINER/org.eclipse.jdt.internal.debug.ui.launcher.StandardVMType/" := rfl

/-- Tokens of the fixed part of the `.project` document after the name. -/
def pjSufToks : List Tok :=
  [Tok.close "name", Tok.text "\n  ", Tok.tagOpen "comment" [] true,
   Tok.text "\n  ", Tok.tagOpen "projects" [] true,
   Tok.text "\n  ", Tok.tagOpen "buildSpec" [] false,
   Tok.text "\n    ", Tok.tagOpen "buildCommand" [] false,
   Tok.text "\n      ", Tok.tagOpen "name" [] false,
   Tok.text "org.eclipse.jdt.core.javabuilder", Tok.close "name",
   Tok.text "\n      ", Tok.tagOpen "arguments" [] true,
   Tok.text "\n    ", Tok.close "buildCommand",
   Tok.text "\n  ", Tok.close "buildSpec",
   Tok.text "\n  ", Tok.tagOpen "natures" [] false,
   Tok.text "\n    ", Tok.tagOpen "nature" [] false,
   Tok.text "org.eclipse.jdt.core.javanature", Tok.close "nature",
   Tok.text "\n  ", Tok.close "natures",
   Tok.text "\n", Tok.close "projectDescription"]

theorem take_one_cons (a : Char) (l : List Char) : List.take 1 (a :: l) = [a] := rfl

theorem take_two_cons (a b : Char) (l : List Char) :
    List.take 2 (a :: b :: l) = [a, b] := rfl

theorem drop_one_cons (a : Char) (l : List Char) : List.drop 1 (a :: l) = l := rfl

theorem drop_two_cons (a b : Char) (l : List Char) :
    List.drop 2 (a :: b :: l) = l := rfl

theorem lex_pjSuf : lexChars pjSufL = some pjSufToks := by
  simp only [pjSufL, pjSufToks, lexChars_nil, lexChars_decl, lexChars_close,
    lexChars_open, lexChars_textStep, parseAttrs_nil, parseAttrs_gt, parseAttrs_sp,
    parseAttrs_slash,
    nameChar, attrNameChar,
    take_one_cons, take_two_cons, drop_one_cons, drop_two_cons,
    List.takeWhile_cons, List.dropWhile_cons,
    ne_eq, Char.reduceEq, reduceIte, decide_True, decide_False, not_false_eq_true,
    decide_not, Bool.not_true, Bool.not_false, Bool.false_eq_true, Bool.true_eq_false,
    if_true, if_false, List.cons.injEq, and_true, true_and, and_false, false_and,
    not_false_iff,
    not_true_eq_false, Bool.and_true, Bool.and_false, Bool.true_and, Bool.false_and,
    Bool.and_self, Option.map_some, Option.map_none,
    mkLit0, mkLit1, mkLit2, mkLit3, mkLit4, mkLit5, mkLit6, mkLit7, mkLit8,
    mkLit9, mkLit10, mkLit11, mkLit12, mkLit13, mkLit14, mkLit15, mkLit16,
    mkLit17, mkLit18, mkLit19, mkLit20, mkLit21, mkLit22, mkLit23, mkLit24,
    mkLit25, mkLit26, mkLit27, mkLit28]
  rfl

/-- Lexing the full `.project` document, for a non-empty project name. -/
theorem lex_project (s : String) (h : s.data ≠ []) :
    lexChars (pjPreL ++ (textEscapeList s.data ++ pjSufL))
      = some (Tok.text "\n" :: Tok.tagOpen "projectDescription" [] false
          :: Tok.text "\n  " :: Tok.tagOpen "name" [] false
          :: Tok.text (String.mk (textEscapeList s.data)) :: pjSufToks) := by
  have hne : textEscapeList s.data ≠ [] := by
    match hd : s.data with
    | [] => exact absurd hd h
    | c :: cs => exact textEscape_ne_nil c cs
  have hv : lexChars (textEscapeList s.data ++ pjSufL)
      = some (Tok.text (String.mk (textEscapeList s.data)) :: pjSufToks) := by
    apply lexChars_text_append _ hne (textEscape_all_ne_lt _) _ _ lex_pjSuf
    intro u us hcontra
    simp [pjSufToks] at hcontra
  simp only [pjPreL, hv, lexChars_nil, lexChars_decl, lexChars_close,
    lexChars_open, lexChars_textStep, parseAttrs_nil, parseAttrs_gt, parseAttrs_sp,
    parseAttrs_slash,
    nameChar, attrNameChar,
    take_one_cons, take_two_cons, drop_one_cons, drop_two_cons,
    List.takeWhile_cons, List.dropWhile_cons, List.cons_append, List.nil_append,
    ne_eq, Char.reduceEq, reduceIte, decide_True, decide_False, not_false_eq_true,
    decide_not, Bool.not_true, Bool.not_false, Bool.false_eq_true, Bool.true_eq_false,
    if_true, if_false, List.cons.injEq, and_true, true_and, and_false, false_and,
    not_false_iff,
    Bool.and_true, Bool.and_false, Bool.true_and, Bool.false_and,
    Bool.and_self, Option.map_some, Option.map_none,
    mkLit0, mkLit1, mkLit2, mkLit3, mkLit4, mkLit5, mkLit6, mkLit7, mkLit8,
    mkLit9, mkLit10, mkLit11, mkLit12, mkLit13, mkLit14, mkLit15, mkLit16,
    mkLit17, mkLit18, mkLit19, mkLit20, mkLit21, mkLit22, mkLit23, mkLit24,
    mkLit25, mkLit26, mkLit27, mkLit28]
  rfl

/-- Tokens of the fixed part of the `.classpath` document after the first
(`con`) entry's opening tag. -/
def cpSufToks : List Tok :=
  [Tok.text "\n    ", Tok.tagOpen "attributes" [] false,
   Tok.text "\n      ",
   Tok.tagOpen "attribute" [("name", "module"), ("value", "true")] true,
   Tok.text "\n    ", Tok.close "attributes",
   Tok.text "\n  ", Tok.close "classpathentry",
   Tok.text "\n  ", Tok.tagOpen "classpathentry" [("kind", "src"), ("path", "src")] true,
   Tok.text "\n  ", Tok.tagOpen "classpathentry" [("kind", "output"), ("path", "bin")] true,
   Tok.text "\n", Tok.close "classpath"]

/-- The JRE container prefix as an explicit character list. -/
def jreConstL : List Char :=
  ['o', 'r', 'g', '.', 'e', 'c', 'l', 'i', 'p', 's', 'e', '.', 'j', 'd', 't', '.', 'l', 'a', 'u', 'n', 'c', 'h', 'i', 'n', 'g', '.', 'J', 'R', 'E', '_', 'C', 'O', 'N', 'T', 'A', 'I', 'N', 'E', 'R', '/', 'o', 'r', 'g', '.', 'e', 'c', 'l', 'i', 'p', 's', 'e', '.', 'j', 'd', 't', '.', 'i', 'n', 't', 'e', 'r', 'n', 'a', 'l', '.', 'd', 'e', 'b', 'u', 'g', '.', 'u', 'i', '.', 'l', 'a', 'u', 'n', 'c', 'h', 'e', 'r', '.', 'S', 't', 'a', 'n', 'd', 'a', 'r', 'd', 'V', 'M', 'T', 'y', 'p', 'e', '/']

/-- Reading the `path` attribute of the `con` classpath entry. -/
theorem parseAttrs_path (v : String) (r : List Char) :
    parseAttrs (' ' :: 'p' :: 'a' :: 't' :: 'h' :: '=' :: '"'
        :: (jreConstL ++ (attEscapeList v.data ++ '"' :: '>' :: r)))
      = ⟨[("path", String.mk (jreConstL ++ v.data))], false, true, r⟩ := by
  rw [parseAttrs_sp]
  · simp only [jreConstL,
      attEscape_takeWhile_quot, attEscape_dropWhile_quot,
      attEscape_takeWhile_quotB, attEscape_dropWhile_quotB, xmlUnescape_cons_of_ne,
      xmlUnescape_attEscape, parseAttrs_gt, mkLit15, attrNameChar,
    take_one_cons, take_two_cons, drop_one_cons, drop_two_cons,
    List.takeWhile_cons, List.dropWhile_cons, List.cons_append, List.nil_append,
    List.append_assoc,
    ne_eq, Char.reduceEq, reduceIte, decide_True, decide_False, not_false_eq_true,
    decide_not, Bool.not_true, Bool.not_false, Bool.false_eq_true, Bool.true_eq_false,
    if_true, if_false, List.cons.injEq, and_true, true_and, and_false, false_and,
    not_false_iff,
    Bool.and_true, Bool.and_false, Bool.true_and, Bool.false_and, Bool.and_self]
  · simp only [jreConstL, attrNameChar,
    take_one_cons, take_two_cons, drop_one_cons, drop_two_cons,
    List.takeWhile_cons, List.dropWhile_cons, List.cons_append, List.nil_append,
    List.append_assoc,
    ne_eq, Char.reduceEq, reduceIte, decide_True, decide_False, not_false_eq_true,
    decide_not, Bool.not_true, Bool.not_false, Bool.false_eq_true, Bool.true_eq_false,
    if_true, if_false, List.cons.injEq, and_true, true_and, and_false, false_and,
    not_false_iff,
    Bool.and_true, Bool.and_false, Bool.true_and, Bool.false_and, Bool.and_self]
  · simp only [jreConstL, attEscape_dropWhile_quot, attEscape_dropWhile_quotB, attrNameChar,
    take_one_cons, take_two_cons, drop_one_cons, drop_two_cons,
    List.takeWhile_cons, List.dropWhile_cons, List.cons_append, List.nil_append,
    List.append_assoc,
    ne_eq, Char.reduceEq, reduceIte, decide_True, decide_False, not_false_eq_true,
    decide_not, Bool.not_true, Bool.not_false, Bool.false_eq_true, Bool.true_eq_false,
    if_true, if_false, List.cons.injEq, and_true, true_and, and_false, false_and,
    not_false_iff,
    Bool.and_true, Bool.and_false, Bool.true_and, Bool.false_and, Bool.and_self]

/-- Reading the attribute list of the `con` classpath entry. -/
theorem parseAttrs_con (v : String) (r : List Char) :
    parseAttrs (' ' :: 'k' :: 'i' :: 'n' :: 'd' :: '=' :: '"' :: 'c' :: 'o' :: 'n' :: '"'
        :: ' ' :: 'p' :: 'a' :: 't' :: 'h' :: '=' :: '"'
        :: (jreConstL ++ (attEscapeList v.data ++ '"' :: '>' :: r)))
      = ⟨[("kind", "con"), ("path", String.mk (jreConstL ++ v.data))], false, true, r⟩ := by
  rw [parseAttrs_sp]
  · simp only [parseAttrs_path, xmlUnescape_cons_of_ne,
      mkLit13, mkLit14, attrNameChar,
    take_one_cons, take_two_cons, drop_one_cons, drop_two_cons,
    List.takeWhile_cons, List.dropWhile_cons, List.cons_append, List.nil_append,
    List.append_assoc,
    ne_eq, Char.reduceEq, reduceIte, decide_True, decide_False, not_false_eq_true,
    decide_not, Bool.not_true, Bool.not_false, Bool.false_eq_true, Bool.true_eq_false,
    if_true, if_false, List.cons.injEq, and_true, true_and, and_false, false_and,
    not_false_iff,
    Bool.and_true, Bool.and_false, Bool.true_and, Bool.false_and, Bool.and_self]
    rfl
  · simp only [attrNameChar,
    take_one_cons, take_two_cons, drop_one_cons, drop_two_cons,
    List.takeWhile_cons, List.dropWhile_cons, List.cons_append, List.nil_append,
    List.append_assoc,
    ne_eq, Char.reduceEq, reduceIte, decide_True, decide_False, not_false_eq_true,
    decide_not, Bool.not_true, Bool.not_false, Bool.false_eq_true, Bool.true_eq_false,
    if_true, if_false, List.cons.injEq, and_true, true_and, and_false, false_and,
    not_false_iff,
    Bool.and_true, Bool.and_false, Bool.true_and, Bool.false_and, Bool.and_self]
  · simp only [attrNameChar,
    take_one_cons, take_two_cons, drop_one_cons, drop_two_cons,
    List.takeWhile_cons, List.dropWhile_cons, List.cons_append, List.nil_append,
    List.append_assoc,
    ne_eq, Char.reduceEq, reduceIte, decide_True, decide_False, not_false_eq_true,
    decide_not, Bool.not_true, Bool.not_false, Bool.false_eq_true, Bool.true_eq_false,
    if_true, if_false, List.cons.injEq, and_true, true_and, and_false, false_and,
    not_false_iff,
    Bool.and_true, Bool.and_false, Bool.true_and, Bool.false_and, Bool.and_self]

/-- Lexing the full `.classpath` document. -/
theorem lex_classpath (v : String) :
    lexChars (cpPreL ++ (attEscapeList v.data ++ cpSufL))
      = some (Tok.text "\n" :: Tok.tagOpen "classpath" [] false
          :: Tok.text "\n  "
          :: Tok.tagOpen "classpathentry"
               [("kind", "con"),
                ("path", String.mk (jreConstL ++ xmlUnescape (attEscapeList v.data)))] false
          :: cpSufToks) := by
  simp only [cpPreL, cpSufL, jreConstL, parseAttrs_con,
    attEscape_takeWhile_quot, attEscape_dropWhile_quot,
      attEscape_takeWhile_quotB, attEscape_dropWhile_quotB,
    xmlUnescape_cons_of_ne, List.append_assoc, lexChars_nil, lexChars_decl, lexChars_close,
    lexChars_open, lexChars_textStep, parseAttrs_nil, parseAttrs_gt, parseAttrs_sp,
    parseAttrs_slash,
    nameChar, attrNameChar,
    take_one_cons, take_two_cons, drop_one_cons, drop_two_cons,
    List.takeWhile_cons, List.dropWhile_cons, List.cons_append, List.nil_append,
    ne_eq, Char.reduceEq, reduceIte, decide_True, decide_False, not_false_eq_true,
    decide_not, Bool.not_true, Bool.not_false, Bool.false_eq_true, Bool.true_eq_false,
    if_true, if_false, List.cons.injEq, and_true, true_and, and_false, false_and,
    not_false_iff,
    Bool.and_true, Bool.and_false, Bool.true_and, Bool.false_and,
    Bool.and_self, Option.map_some, Option.map_none,
    mkLit0, mkLit1, mkLit2, mkLit3, mkLit4, mkLit5, mkLit6, mkLit7, mkLit8,
    mkLit9, mkLit10, mkLit11, mkLit12, mkLit13, mkLit14, mkLit15, mkLit16,
    mkLit17, mkLit18, mkLit19, mkLit20, mkLit21, mkLit22, mkLit23, mkLit24,
    mkLit25, mkLit26, mkLit27, mkLit28]
  rfl

theorem strData_mk (l : List Char) : (String.mk l).data = l := rfl

theorem dataT0 : ("\n" : String).data = ['\n'] := rfl

theorem dataT1 : ("\n  " : String).data = ['\n', ' ', ' '] := rfl

theorem dataT2 : ("\n    " : String).data = ['\n', ' ', ' ', ' ', ' '] := rfl

theorem dataT3 : ("\n      " : String).data = ['\n', ' ', ' ', ' ', ' ', ' ', ' '] := rfl

/-- The `.project` document for the empty project name, as characters. -/
def pjEmptyL : List Char :=
  ['<', '?', 'x', 'm', 'l', ' ', 'v', 'e', 'r', 's', 'i', 'o', 'n', '=', '"', '1', '.', '0', '"', ' ', 'e', 'n', 'c', 'o', 'd', 'i', 'n', 'g', '=', '"', 'U', 'T', 'F', '-', '8', '"', '?', '>', '\n', '<', 'p', 'r', 'o', 'j', 'e', 'c', 't', 'D', 'e', 's', 'c', 'r', 'i', 'p', 't', 'i', 'o', 'n', '>', '\n', ' ', ' ', '<', 'n', 'a', 'm', 'e', '/', '>', '\n', ' ', ' ', '<', 'c', 'o', 'm', 'm', 'e', 'n', 't', '/', '>', '\n', ' ', ' ', '<', 'p', 'r', 'o', 'j', 'e', 'c', 't', 's', '/', '>', '\n', ' ', ' ', '<', 'b', 'u', 'i', 'l', 'd', 'S', 'p', 'e', 'c', '>', '\n', ' ', ' ', ' ', ' ', '<', 'b', 'u', 'i', 'l', 'd', 'C', 'o', 'm', 'm', 'a', 'n', 'd', '>', '\n', ' ', ' ', ' ', ' ', ' ', ' ', '<', 'n', 'a', 'm', 'e', '>', 'o', 'r', 'g', '.', 'e', 'c', 'l', 'i', 'p', 's', 'e', '.', 'j', 'd', 't', '.', 'c', 'o', 'r', 'e', '.', 'j', 'a', 'v', 'a', 'b', 'u', 'i', 'l', 'd', 'e', 'r', '<', '/', 'n', 'a', 'm', 'e', '>', '\n', ' ', ' ', ' ', ' ', ' ', ' ', '<', 'a', 'r', 'g', 'u', 'm', 'e', 'n', 't', 's', '/', '>', '\n', ' ', ' ', ' ', ' ', '<', '/', 'b', 'u', 'i', 'l', 'd', 'C', 'o', 'm', 'm', 'a', 'n', 'd', '>', '\n', ' ', ' ', '<', '/', 'b', 'u', 'i', 'l', 'd', 'S', 'p', 'e', 'c', '>', '\n', ' ', ' ', '<', 'n', 'a', 't', 'u', 'r', 'e', 's', '>', '\n', ' ', ' ', ' ', ' ', '<', 'n', 'a', 't', 'u', 'r', 'e', '>', 'o', 'r', 'g', '.', 'e', 'c', 'l', 'i', 'p', 's', 'e', '.', 'j', 'd', 't', '.', 'c', 'o', 'r', 'e', '.', 'j', 'a', 'v', 'a', 'n', 'a', 't', 'u', 'r', 'e', '<', '/', 'n', 'a', 't', 'u', 'r', 'e', '>', '\n', ' ', ' ', '<', '/', 'n', 'a', 't', 'u', 'r', 'e', 's', '>', '\n', '<', '/', 'p', 'r', 'o', 'j', 'e', 'c', 't', 'D', 'e', 's', 'c', 'r', 'i', 'p', 't', 'i', 'o', 'n', '>']

theorem pjEmpty_data : (createProjectFile "").data = pjEmptyL := by
  decide

/-- Tokens of the `.project` document for the empty name. -/
def pjEmptyToks : List Tok :=
  Tok.text "\n" :: Tok.tagOpen "projectDescription" [] false
    :: Tok.text "\n  " :: Tok.tagOpen "name" [] true :: pjSufToks.tail

theorem lex_pjEmpty : lexChars pjEmptyL = some pjEmptyToks := by
  simp only [pjEmptyL, pjEmptyToks, pjSufToks, List.tail_cons, lexChars_nil, lexChars_decl, lexChars_close,
    lexChars_open, lexChars_textStep, parseAttrs_nil, parseAttrs_gt, parseAttrs_sp,
    parseAttrs_slash,
    nameChar, attrNameChar,
    take_one_cons, take_two_cons, drop_one_cons, drop_two_cons,
    List.takeWhile_cons, List.dropWhile_cons, List.cons_append, List.nil_append,
    ne_eq, Char.reduceEq, reduceIte, decide_True, decide_False, not_false_eq_true,
    decide_not, Bool.not_true, Bool.not_false, Bool.false_eq_true, Bool.true_eq_false,
    if_true, if_false, List.cons.injEq, and_true, true_and, and_false, false_and,
    not_false_iff,
    Bool.and_true, Bool.and_false, Bool.true_and, Bool.false_and,
    Bool.and_self, Option.map_some, Option.map_none,
    mkLit0, mkLit1, mkLit2, mkLit3, mkLit4, mkLit5, mkLit6, mkLit7, mkLit8,
    mkLit9, mkLit10, mkLit11, mkLit12, mkLit13, mkLit14, mkLit15, mkLit16,
    mkLit17, mkLit18, mkLit19, mkLit20, mkLit21, mkLit22, mkLit23, mkLit24,
    mkLit25, mkLit26, mkLit27, mkLit28]
  rfl

/-- Re-parsing the `.project` output recovers the project name exactly. -/
theorem parse_project_name (s : String) :
    (parseXml (createProjectFile s)).bind
        (fun t => (childElem t "name").map textContent) = some s := by
  match hd : s.data with
  | [] =>
    have hs : s = "" := by
      have hmk := stringMk_data s
      rw [hd] at hmk
      rw [← hmk]
    subst hs
    simp only [parseXml, pjEmpty_data, lex_pjEmpty, pjEmptyToks, pjSufToks,
      List.tail_cons, build, strData_mk, stringMk_data, xmlUnescape_cons_of_ne, xmlUnescape_textEscape,
    xmlUnescape_attEscape, dataT0, dataT1, dataT2, dataT3, litD10, litD11,
    mkLit1, mkLit22, mkLit23, mkLit24, mkLit25, mkLit26, mkLit27,
    isElem, isElemNamed, elemChildren, childElem, textsOf, textContent,
    firstElemChild, attrOf, parseXml,
    List.find?, List.filter, List.reverse_cons, List.reverse_nil,
    List.append_nil, List.nil_append, List.cons_append, List.append_assoc,
    Option.bind, Option.map_some, Option.map_none,
    ne_eq, Char.reduceEq, reduceIte, decide_True, decide_False, not_false_eq_true,
    decide_not, Bool.not_true, Bool.not_false, Bool.false_eq_true, Bool.true_eq_false,
    if_true, if_false, List.cons.injEq, and_true, true_and, and_false, false_and,
    not_false_iff]
    simp [textContent, elemChildren, textsOf, stringMk_data]
  | c :: cs =>
    have hne : s.data ≠ [] := by
      rw [hd]
      simp
    have hns : s ≠ "" := by
      intro he
      apply hne
      rw [he]
    have hdata := createProjectFile_data s hns
    simp only [parseXml, hdata, lex_project s hne, pjSufToks, build, strData_mk, stringMk_data, xmlUnescape_cons_of_ne, xmlUnescape_textEscape,
    xmlUnescape_attEscape, dataT0, dataT1, dataT2, dataT3, litD10, litD11,
    mkLit1, mkLit22, mkLit23, mkLit24, mkLit25, mkLit26, mkLit27,
    isElem, isElemNamed, elemChildren, childElem, textsOf, textContent,
    firstElemChild, attrOf, parseXml,
    List.find?, List.filter, List.reverse_cons, List.reverse_nil,
    List.append_nil, List.nil_append, List.cons_append, List.append_assoc,
    Option.bind, Option.map_some, Option.map_none,
    ne_eq, Char.reduceEq, reduceIte, decide_True, decide_False, not_false_eq_true,
    decide_not, Bool.not_true, Bool.not_false, Bool.false_eq_true, Bool.true_eq_false,
    if_true, if_false, List.cons.injEq, and_true, true_and, and_false, false_and,
    not_false_iff]
    simp [textContent, elemChildren, textsOf, stringMk_data]

theorem jre_data (v : String) : (jreContainerPath v).data = jreConstL ++ v.data := by
  rw [jreContainerPath, String.data_append]
  congr 1

theorem mk_jre (v : String) : String.mk (jreConstL ++ v.data) = jreContainerPath v :=
  String.ext (by rw [strData_mk, jre_data])

/-- Re-parsing the `.classpath` output: the first element child's `path`
attribute is exactly the JRE container path embedding the version. -/
theorem parse_classpath_path (v : String) :
    (parseXml (createClassPathFile v)).bind
        (fun t => (firstElemChild t).bind (fun e => attrOf e "path")) =
      some (jreContainerPath v) := by
  have hdata := createClassPathFile_data v
  simp only [parseXml, hdata, lex_classpath v, cpSufToks, build, strData_mk, stringMk_data, xmlUnescape_cons_of_ne, xmlUnescape_textEscape,
    xmlUnescape_attEscape, dataT0, dataT1, dataT2, dataT3, litD10, litD11,
    mkLit1, mkLit22, mkLit23, mkLit24, mkLit25, mkLit26, mkLit27,
    isElem, isElemNamed, elemChildren, childElem, textsOf, textContent,
    firstElemChild, attrOf, parseXml,
    List.find?, List.filter, List.reverse_cons, List.reverse_nil,
    List.append_nil, List.nil_append, List.cons_append, List.append_assoc,
    Option.bind, Option.map_some, Option.map_none,
    ne_eq, Char.reduceEq, reduceIte, decide_True, decide_False, not_false_eq_true,
    decide_not, Bool.not_true, Bool.not_false, Bool.false_eq_true, Bool.true_eq_false,
    if_true, if_false, List.cons.injEq, and_true, true_and, and_false, false_and,
    not_false_iff]
  simp [firstElemChild, elemChildren, isElem, attrOf, mk_jre]

/-- C5: Round-trip. For every input string, including ones containing `<`, `&`
and `"`, re-parsing the XML produced by `createProjectFile` yields a `name`
element whose text equals the input exactly, and re-parsing the XML produced
by `createClassPathFile` yields a first element whose `path` attribute ends
with the input exactly: XML-special characters are escaped correctly. -/
theorem claim_C5 (s v : String) :
    (parseXml (createProjectFile s)).bind
        (fun t => (childElem t "name").map textContent) = some s ∧
    (parseXml (createClassPathFile v)).bind
        (fun t => (firstElemChild t).bind (fun e => attrOf e "path")) =
      some (jreContainerPath v) ∧
    ∃ pre, jreContainerPath v = pre ++ v :=
  ⟨parse_project_name s, parse_classpath_path v,
    ⟨"org.eclipse.jdt.launching.JRE_CONTAINER/org.eclipse.jdt.internal.debug.ui.launcher.StandardVMType/",
      rfl⟩⟩

end NewJavaProject
